import Mathlib

/-!
Verification of the tau2-bench transactional domain toolkits.

This file gives a shallow embedding, in Lean 4, of the state-mutating and
read-only toolkit operations of several tau2-bench domains (bank, travel
agency, railway, e-commerce) together with the dual-party evaluation loop of
the green agent, and proves properties of those operations: fail-fast
atomicity, ledger/refund symmetry, identifier allocation, frame conditions of
READ and GENERIC tools, lifecycle-status checking, and session correlation in
the orchestration loop.

Modelling conventions, used consistently below:

* Python dictionaries (which preserve insertion order) are modelled as
  association lists `List (String × α)`; `alistSet` mirrors `d[k] = v`
  (replace if the key is present, append otherwise) and `alistModify` mirrors
  an in-place mutation of the value object stored at a key.
* Python `float` monetary amounts are modelled as exact rationals `ℚ`;
  `round(x, 2)` is modelled as `round2` (scale by 100, round half to even,
  divide by 100).  Binary floating-point representation error is not
  modelled.
* A tool call on a database is a function `… → DB → Except String α × DB`:
  the `Except` component is the returned value or the raised `ValueError`
  message, and the second component is the database after the call.  A
  `raise` at some point of the Python body is translated as returning
  `Except.error` together with the database as already mutated at that point,
  so atomicity (error implies unchanged database) is a real theorem about
  where mutations sit in the control flow, not an artifact of the encoding.
* `datetime.utcnow()` is modelled by an explicit `now : String` parameter.
-/

deriving instance DecidableEq for Except

/-- Round a rational to the nearest integer, ties going to the even integer
(the behaviour of Python `round` on exact decimal values). -/
def roundHalfEven (q : ℚ) : ℤ :=
  let f := ⌊q⌋
  let r := q - f
  if r < 1/2 then f
  else if 1/2 < r then f + 1
  else if 2 ∣ f then f else f + 1

/-- Model of Python `round(x, 2)`. -/
def round2 (q : ℚ) : ℚ := (roundHalfEven (q * 100) : ℚ) / 100

/-- Model of Python `int(x)` on a float: truncation toward zero. -/
def qtrunc (q : ℚ) : ℤ := if 0 ≤ q then ⌊q⌋ else -⌊-q⌋

/-- A rational is a whole number of cents (an exact two-decimal value). -/
def IsCents (q : ℚ) : Prop := ∃ n : ℤ, q = (n : ℚ) / 100

theorem IsCents.add {a b : ℚ} (ha : IsCents a) (hb : IsCents b) :
    IsCents (a + b) := by
  obtain ⟨m, rfl⟩ := ha
  obtain ⟨n, rfl⟩ := hb
  exact ⟨m + n, by push_cast; ring⟩

theorem IsCents.neg {a : ℚ} (ha : IsCents a) : IsCents (-a) := by
  obtain ⟨m, rfl⟩ := ha
  exact ⟨-m, by push_cast; ring⟩

theorem IsCents.sub {a b : ℚ} (ha : IsCents a) (hb : IsCents b) :
    IsCents (a - b) := by
  simpa [sub_eq_add_neg] using ha.add hb.neg

theorem roundHalfEven_intCast (n : ℤ) : roundHalfEven (n : ℚ) = n := by
  simp [roundHalfEven]

/-- On an exact two-decimal value, `round2` is the identity. -/
theorem round2_eq_self {q : ℚ} (h : IsCents q) : round2 q = q := by
  obtain ⟨n, rfl⟩ := h
  have h100 : ((n : ℚ) / 100) * 100 = (n : ℚ) := by
    field_simp
  rw [round2, h100, roundHalfEven_intCast]

/-- Lookup in an association list modelling a Python dict. -/
def alistLookup {α : Type} (l : List (String × α)) (k : String) : Option α :=
  (l.find? (fun kv => kv.1 = k)).map (fun kv => kv.2)

/-- Key-membership test, modelling Python `k in d`. -/
def alistHasKey {α : Type} (l : List (String × α)) (k : String) : Bool :=
  l.any (fun kv => kv.1 = k)

/-- Model of Python `d[k] = v`: replace the value at the first occurrence of
the key, or append the binding at the end. -/
def alistSet {α : Type} : List (String × α) → String → α → List (String × α)
  | [], k, v => [(k, v)]
  | (k1, v1) :: rest, k, v =>
    if k1 = k then (k, v) :: rest else (k1, v1) :: alistSet rest k v

/-- Model of an in-place mutation of the object stored at a key (a no-op when
the key is absent). -/
def alistModify {α : Type} : List (String × α) → String → (α → α) → List (String × α)
  | [], _, _ => []
  | (k1, v1) :: rest, k, f =>
    if k1 = k then (k1, f v1) :: rest else (k1, v1) :: alistModify rest k f

theorem alistLookup_modify_self {α : Type} (l : List (String × α)) (k : String)
    (f : α → α) :
    alistLookup (alistModify l k f) k = (alistLookup l k).map f := by
  induction l with
  | nil => simp [alistLookup, alistModify]
  | cons hd tl ih =>
    by_cases h : hd.1 = k
    · simp [alistLookup, alistModify, h, List.find?]
    · simp only [alistModify, h, if_false]
      simpa [alistLookup, List.find?, h] using ih

theorem alistModify_modify_self {α : Type} (l : List (String × α)) (k : String)
    (f g : α → α) :
    alistModify (alistModify l k f) k g = alistModify l k (fun a => g (f a)) := by
  induction l with
  | nil => simp [alistModify]
  | cons hd tl ih =>
    by_cases h : hd.1 = k
    · simp [alistModify, h]
    · simp [alistModify, h, ih]

/-- Python `a or b` where `a` is an optional string: `None` and `""` are
falsy, so the default is used for both. -/
def pyStrOr (a : Option String) (b : String) : String :=
  match a with
  | some s => if s = "" then b else s
  | none => b

/-- Pad a natural number with leading zeros to width 7, modelling the Python
format specifier `{n:07d}`. -/
def pad7 (n : ℕ) : String :=
  let s := toString n
  if s.length < 7 then String.mk (List.replicate (7 - s.length) '0') ++ s else s

namespace Bank

/-- Balances of a bank account (`AccountBalance` in the data model). -/
structure AccountBalance where
  current : ℚ
  available : ℚ
  on_hold : ℚ
deriving DecidableEq, Repr

/-- Feature switches of an account (`AccountFeatures`). -/
structure AccountFeatures where
  checks_enabled : Bool
  atm_access : Bool
  online_banking : Bool
deriving DecidableEq, Repr

/-- A bank account (`Account`).  The Python `Literal` string enumerations
(`type`, `status`, …) are modelled as plain strings, which is how they are
represented and compared at runtime. -/
structure Account where
  account_id : String
  type : String
  currency : String
  status : String
  account_number_masked : String
  routing_number : String
  balance : AccountBalance
  interest_rate_apr : Option ℚ
  overdraft_limit : Option ℚ
  opened_at : String
  features : AccountFeatures
deriving DecidableEq, Repr

/-- Additional card details (`CardExtraInfo`). -/
structure CardExtraInfo where
  brand : String
  last_four : String
  exp_month : String
  exp_year : String
deriving DecidableEq, Repr

/-- Card limits (`CardLimits`). -/
structure CardLimits where
  daily_atm_limit : ℚ
  daily_pos_limit : ℚ
deriving DecidableEq, Repr

/-- A bank card (`Card`). -/
structure Card where
  card_id : String
  type : String
  linked_account_id : String
  status : String
  issuer : String
  extra_info : CardExtraInfo
  limits : CardLimits
  pin_set : Bool
deriving DecidableEq, Repr

/-- KYC information (`KYCInfo`). -/
structure KYCInfo where
  status : String
  last_reviewed_at : String
  tax_id_masked : String
deriving DecidableEq, Repr

/-- Merchant details of a transaction (`MerchantInfo`). -/
structure MerchantInfo where
  name : String
  mcc : String
  city : String
  country : String
deriving DecidableEq, Repr

/-- Currency-exchange details of a transaction (`ExchangeInfo`). -/
structure ExchangeInfo where
  source_currency : String
  target_currency : String
  rate : ℚ
  source_amount : ℚ
  target_amount : ℚ
deriving DecidableEq, Repr

/-- A fee attached to a transaction (`TransactionFee`). -/
structure TransactionFee where
  type : String
  amount : ℚ
  currency : String
deriving DecidableEq, Repr

/-- A hold on a transaction (`TransactionHold`). -/
structure TransactionHold where
  is_hold : Bool
  release_at : Option String
  reason : Option String
deriving DecidableEq, Repr

/-- A banking transaction (`Transaction`). -/
structure Transaction where
  transaction_id : String
  client_id : String
  account_id : String
  timestamp : String
  type : String
  direction : String
  amount : ℚ
  currency : String
  description : Option String
  method : String
  status : String
  merchant : Option MerchantInfo
  related_transaction_id : Option String
  exchange : Option ExchangeInfo
  fees : List TransactionFee
  hold : Option TransactionHold
  balance_after : Option ℚ
deriving DecidableEq, Repr

/-- Loan collateral (`Collateral`). -/
structure Collateral where
  type : String
  description : String
  value_amount : ℚ
  value_currency : String
deriving DecidableEq, Repr

/-- A scheduled loan payment (`LoanPaymentScheduleEntry`). -/
structure LoanPaymentScheduleEntry where
  due_date : String
  amount : ℚ
  currency : String
  status : String
  transaction_id : Option String
deriving DecidableEq, Repr

/-- A loan repayment history entry (`LoanRepaymentHistoryEntry`). -/
structure LoanRepaymentHistoryEntry where
  transaction_id : String
  posted_at : String
  amount : ℚ
  currency : String
  method : String
  principal_component : ℚ
  interest_component : ℚ
  fees_component : ℚ
deriving DecidableEq, Repr

/-- An escrow account tied to a loan (`EscrowAccount`). -/
structure EscrowAccount where
  account_id : String
  balance : ℚ
  currency : String
deriving DecidableEq, Repr

/-- A loan (`Loan`). -/
structure Loan where
  loan_id : String
  client_id : String
  linked_repayment_account_id : String
  type : String
  principal : ℚ
  currency : String
  interest_rate_apr : ℚ
  amortization : String
  term_months : ℤ
  origination_date : String
  first_payment_date : String
  maturity_date : String
  status : String
  collateral : Option Collateral
  payment_schedule : List LoanPaymentScheduleEntry
  repayment_history : List LoanRepaymentHistoryEntry
  escrow : Option EscrowAccount
deriving DecidableEq, Repr

/-- Beneficiary name parts (`BeneficiaryName`). -/
structure BeneficiaryName where
  display_name : Option String
  first_name : Option String
  last_name : Option String
  business_name : Option String
deriving DecidableEq, Repr

/-- Beneficiary bank details (`BankDetails`). -/
structure BankDetails where
  bank_name : String
  account_number_masked : String
  routing_number : Option String
  iban : Option String
  swift_bic : Option String
deriving DecidableEq, Repr

/-- A physical address (`BankAddress`). -/
structure BankAddress where
  address1 : String
  address2 : String
  city : String
  state : String
  zip : String
  country : String
deriving DecidableEq, Repr

/-- Transfer limits of a beneficiary (`TransferLimits`). -/
structure TransferLimits where
  per_transfer_limit : ℚ
  daily_limit : ℚ
deriving DecidableEq, Repr

/-- Beneficiary verification state (`BeneficiaryVerification`). -/
structure BeneficiaryVerification where
  status : String
  method : String
  verified_at : Option String
deriving DecidableEq, Repr

/-- A transfer beneficiary (`Beneficiary`). -/
structure Beneficiary where
  beneficiary_id : String
  client_id : String
  name : BeneficiaryName
  type : String
  bank_details : BankDetails
  address : BankAddress
  allowed_from_account_ids : List String
  transfer_limits : TransferLimits
  verification : BeneficiaryVerification
  status : String
  created_at : String
  notes : Option String
deriving DecidableEq, Repr

/-- A client name (`ClientName`). -/
structure ClientName where
  first_name : String
  last_name : String
  middle_name : Option String
deriving DecidableEq, Repr

/-- Client contact information (`ClientContact`). -/
structure ClientContact where
  email : String
  phone : String
deriving DecidableEq, Repr

/-- A bank client (`Client`). -/
structure Client where
  client_id : String
  name : ClientName
  contact : ClientContact
  address : BankAddress
  accounts : List (String × Account)
  cards : List (String × Card)
  loan_ids : List String
  beneficiary_ids : List String
  created_at : String
  kyc : KYCInfo
deriving DecidableEq, Repr

/-- The bank domain database (`BankDB`). -/
structure BankDB where
  clients : List (String × Client)
  transactions : List (String × Transaction)
  loans : List (String × Loan)
  beneficiaries : List (String × Beneficiary)
deriving DecidableEq, Repr

end Bank

namespace Bank

/-- Result of a tool call: the returned value or the raised `ValueError`
message, together with the database after the call. -/
abbrev ToolRun (α : Type) := Except String α × BankDB

/-- `BankTools._get_client` (as an `Option`; `none` is the not-found error). -/
def get_client (db : BankDB) (client_id : String) : Option Client :=
  alistLookup db.clients client_id

/-- `BankTools._get_account_by_id`: first client (in insertion order) owning
the account, with the account. -/
def get_account_by_id (db : BankDB) (account_id : String) :
    Option (String × Account) :=
  db.clients.findSome? (fun kv =>
    (alistLookup kv.2.accounts account_id).map (fun a => (kv.1, a)))

/-- `BankTools._get_card_by_id`. -/
def get_card_by_id (db : BankDB) (card_id : String) : Option (String × Card) :=
  db.clients.findSome? (fun kv =>
    (alistLookup kv.2.cards card_id).map (fun c => (kv.1, c)))

/-- `BankTools._generate_transaction_id`. -/
def generate_transaction_id (db : BankDB) : String :=
  "tx_" ++ pad7 (db.transactions.length + 1)

/-- In-place mutation of one account object of one client. -/
def updateAccount (db : BankDB) (client_id account_id : String)
    (f : Account → Account) : BankDB :=
  { db with clients := (alistModify db.clients client_id
      (fun c => { c with accounts := alistModify c.accounts account_id f })) }

/-- In-place mutation of one card object of one client. -/
def updateCard (db : BankDB) (client_id card_id : String)
    (f : Card → Card) : BankDB :=
  { db with clients := (alistModify db.clients client_id
      (fun c => { c with cards := alistModify c.cards card_id f })) }

/-- Current balance of an account as stored in the database (`0` when the
account does not exist; only read below at points where existence has already
been established). -/
def accountCurrent (db : BankDB) (client_id account_id : String) : ℚ :=
  (((get_client db client_id).bind
    (fun c => alistLookup c.accounts account_id)).map
      (fun a => a.balance.current)).getD 0

/-- `BankTools.initiate_internal_transfer`.  The four balance writes are
modelled as four successive in-place updates, matching the four assignment
statements of the Python body; this preserves Python object aliasing when
`from_account_id = to_account_id`.  Both transaction ids are generated before
either transaction is stored, exactly as in the source. -/
def initiate_internal_transfer (now : String) (db : BankDB)
    (client_id from_account_id to_account_id : String) (amount : ℚ)
    (description : Option String) : ToolRun (List Transaction) :=
  if amount ≤ 0 then (Except.error "Amount must be greater than zero", db)
  else
    match get_client db client_id with
    | none => (Except.error "Client not found", db)
    | some client =>
      match alistLookup client.accounts from_account_id with
      | none => (Except.error "Both accounts must belong to the same client", db)
      | some from_acc =>
        match alistLookup client.accounts to_account_id with
        | none => (Except.error "Both accounts must belong to the same client", db)
        | some to_acc =>
          if from_acc.status ≠ "active" then
            (Except.error "Account is not active", db)
          else if to_acc.status ≠ "active" then
            (Except.error "Account is not active", db)
          else if from_acc.type = "credit" then
            (Except.error "Transfers from a credit account are not supported", db)
          else if from_acc.currency ≠ to_acc.currency then
            (Except.error "Cross-currency internal transfers are not supported", db)
          else if from_acc.balance.available < amount then
            (Except.error "Insufficient available balance", db)
          else
            let ts_now := now
            let currency := from_acc.currency
            let db1 := updateAccount db client_id from_account_id (fun a =>
              { a with balance :=
                  { a.balance with available := round2 (a.balance.available - amount) } })
            let db2 := updateAccount db1 client_id from_account_id (fun a =>
              { a with balance :=
                  { a.balance with current := round2 (a.balance.current - amount) } })
            let db3 := updateAccount db2 client_id to_account_id (fun a =>
              { a with balance :=
                  { a.balance with available := round2 (a.balance.available + amount) } })
            let db4 := updateAccount db3 client_id to_account_id (fun a =>
              { a with balance :=
                  { a.balance with current := round2 (a.balance.current + amount) } })
            let tx_id_out := generate_transaction_id db4
            let tx_out : Transaction :=
              { transaction_id := tx_id_out
                client_id := client_id
                account_id := from_account_id
                timestamp := ts_now
                type := "transfer"
                direction := "debit"
                amount := round2 amount
                currency := currency
                description :=
                  some (pyStrOr description ("Internal transfer to " ++ to_account_id))
                method := "Internal"
                status := "posted"
                merchant := none
                related_transaction_id := none
                exchange := none
                fees := []
                hold := none
                balance_after := some (accountCurrent db4 client_id from_account_id) }
            let tx_id_in := generate_transaction_id db4
            let tx_in : Transaction :=
              { transaction_id := tx_id_in
                client_id := client_id
                account_id := to_account_id
                timestamp := ts_now
                type := "transfer"
                direction := "credit"
                amount := round2 amount
                currency := currency
                description :=
                  some (pyStrOr description ("Internal transfer from " ++ from_account_id))
                method := "Internal"
                status := "posted"
                merchant := none
                related_transaction_id := some tx_id_out
                exchange := none
                fees := []
                hold := none
                balance_after := some (accountCurrent db4 client_id to_account_id) }
            let tx_out2 := { tx_out with related_transaction_id := some tx_id_in }
            let db5 := { db4 with
              transactions := alistSet db4.transactions tx_id_out tx_out2 }
            let db6 := { db5 with
              transactions := alistSet db5.transactions tx_id_in tx_in }
            (Except.ok [tx_out2, tx_in], db6)

/-- Argument record for `BankTools.add_beneficiary`. -/
structure AddBeneficiaryArgs where
  client_id : String
  beneficiary_id : String
  beneficiary_type : String
  display_name : Option String
  first_name : Option String
  last_name : Option String
  business_name : Option String
  bank_name : String
  account_number_masked : String
  routing_number : Option String
  iban : Option String
  swift_bic : Option String
  address1 : String
  address2 : String
  city : String
  state : String
  zip : String
  country : String
  allowed_from_account_ids : List String
  per_transfer_limit : ℚ
  daily_limit : ℚ
  verification_method : String
deriving DecidableEq, Repr

/-- `BankTools.add_beneficiary`. -/
def add_beneficiary (now : String) (db : BankDB) (args : AddBeneficiaryArgs) :
    ToolRun Beneficiary :=
  match get_client db args.client_id with
  | none => (Except.error "Client not found", db)
  | some client =>
    if args.allowed_from_account_ids.all
        (fun acc_id => alistHasKey client.accounts acc_id) then
      let beneficiary : Beneficiary :=
        { beneficiary_id := args.beneficiary_id
          client_id := args.client_id
          name :=
            { display_name := args.display_name
              first_name := args.first_name
              last_name := args.last_name
              business_name := args.business_name }
          type := args.beneficiary_type
          bank_details :=
            { bank_name := args.bank_name
              account_number_masked := args.account_number_masked
              routing_number := args.routing_number
              iban := args.iban
              swift_bic := args.swift_bic }
          address :=
            { address1 := args.address1
              address2 := args.address2
              city := args.city
              state := args.state
              zip := args.zip
              country := args.country }
          allowed_from_account_ids := args.allowed_from_account_ids
          transfer_limits :=
            { per_transfer_limit := args.per_transfer_limit
              daily_limit := args.daily_limit }
          verification :=
            { status := "pending"
              method := args.verification_method
              verified_at := none }
          status := "active"
          created_at := now
          notes := none }
      let db1 := { db with
        beneficiaries := alistSet db.beneficiaries args.beneficiary_id beneficiary }
      let db2 :=
        if args.beneficiary_id ∈ client.beneficiary_ids then db1
        else { db1 with clients := (alistModify db1.clients args.client_id
          (fun c => { c with
            beneficiary_ids := c.beneficiary_ids ++ [args.beneficiary_id] })) }
      (Except.ok beneficiary, db2)
    else (Except.error "Allowed account does not belong to client", db)

/-- `BankTools.verify_beneficiary`. -/
def verify_beneficiary (now : String) (db : BankDB)
    (client_id beneficiary_id method : String) : ToolRun Beneficiary :=
  match get_client db client_id with
  | none => (Except.error "Client not found", db)
  | some client =>
    if beneficiary_id ∉ client.beneficiary_ids then
      (Except.error "Beneficiary not owned by this client", db)
    else
      match alistLookup db.beneficiaries beneficiary_id with
      | none => (Except.error "Beneficiary not found", db)
      | some b =>
        let b2 := { b with verification :=
          { status := "verified", method := method, verified_at := some now } }
        (Except.ok b2,
          { db with beneficiaries := alistSet db.beneficiaries beneficiary_id b2 })

/-- `BankTools.initiate_transfer_to_beneficiary`. -/
def initiate_transfer_to_beneficiary (now : String) (db : BankDB)
    (client_id from_account_id beneficiary_id : String) (amount : ℚ)
    (method : String) (description : Option String) : ToolRun Transaction :=
  if amount ≤ 0 then (Except.error "Amount must be greater than zero", db)
  else
    match get_client db client_id with
    | none => (Except.error "Client not found", db)
    | some client =>
      match alistLookup client.accounts from_account_id with
      | none => (Except.error "Source account must belong to the client", db)
      | some acc =>
        if acc.status ≠ "active" then (Except.error "Account is not active", db)
        else if beneficiary_id ∉ client.beneficiary_ids then
          (Except.error "Beneficiary not owned by this client", db)
        else
          match alistLookup db.beneficiaries beneficiary_id with
          | none => (Except.error "Beneficiary not found", db)
          | some b =>
            if b.status ≠ "active" then
              (Except.error "Beneficiary is not active", db)
            else if b.verification.status ≠ "verified" then
              (Except.error "Beneficiary must be verified before transfers", db)
            else if from_account_id ∉ b.allowed_from_account_ids then
              (Except.error "This account is not authorized for transfers to the beneficiary", db)
            else if b.transfer_limits.per_transfer_limit < amount then
              (Except.error "Amount exceeds per-transfer limit for beneficiary", db)
            else if acc.balance.available < amount then
              (Except.error "Insufficient available balance", db)
            else
              let db1 := updateAccount db client_id from_account_id (fun a =>
                { a with balance :=
                    { a.balance with available := round2 (a.balance.available - amount) } })
              let db2 := updateAccount db1 client_id from_account_id (fun a =>
                { a with balance :=
                    { a.balance with current := round2 (a.balance.current - amount) } })
              let tx_id := generate_transaction_id db2
              let tx : Transaction :=
                { transaction_id := tx_id
                  client_id := client_id
                  account_id := from_account_id
                  timestamp := now
                  type := "transfer"
                  direction := "debit"
                  amount := round2 amount
                  currency := acc.currency
                  description := some (pyStrOr description
                    ("Transfer to beneficiary " ++
                      pyStrOr b.name.display_name b.beneficiary_id))
                  method := method
                  status := "posted"
                  merchant := none
                  related_transaction_id := none
                  exchange := none
                  fees := []
                  hold := none
                  balance_after := some (accountCurrent db2 client_id from_account_id) }
              (Except.ok tx,
                { db2 with transactions := alistSet db2.transactions tx_id tx })

/-- `BankTools.freeze_card`. -/
def freeze_card (db : BankDB) (card_id _reason : String) : ToolRun Card :=
  match get_card_by_id db card_id with
  | none => (Except.error "Card not found", db)
  | some (cid, card) =>
    if card.status ≠ "active" ∧ card.status ≠ "blocked" then
      (Except.error "Card not in a manageable state", db)
    else if card.status = "blocked" then (Except.ok card, db)
    else
      let card2 := { card with status := "blocked" }
      (Except.ok card2, updateCard db cid card_id (fun _ => card2))

/-- `BankTools.unfreeze_card`. -/
def unfreeze_card (db : BankDB) (card_id : String) : ToolRun Card :=
  match get_card_by_id db card_id with
  | none => (Except.error "Card not found", db)
  | some (cid, card) =>
    if card.status ≠ "active" ∧ card.status ≠ "blocked" then
      (Except.error "Card not in a manageable state", db)
    else if card.status = "active" then (Except.ok card, db)
    else
      let card2 := { card with status := "active" }
      (Except.ok card2, updateCard db cid card_id (fun _ => card2))

/-- `BankTools.freeze_account`. -/
def freeze_account (db : BankDB) (account_id _reason : String) : ToolRun Account :=
  match get_account_by_id db account_id with
  | none => (Except.error "Account not found", db)
  | some (cid, acc) =>
    if acc.status = "closed" then
      (Except.error "Account is closed and cannot be frozen", db)
    else
      let acc2 := { acc with status := "frozen" }
      (Except.ok acc2, updateAccount db cid account_id (fun _ => acc2))

/-- `BankTools.unfreeze_account`. -/
def unfreeze_account (db : BankDB) (account_id : String) : ToolRun Account :=
  match get_account_by_id db account_id with
  | none => (Except.error "Account not found", db)
  | some (cid, acc) =>
    if acc.status = "closed" then
      (Except.error "Account is closed and cannot be unfrozen", db)
    else
      let acc2 := { acc with status := "active" }
      (Except.ok acc2, updateAccount db cid account_id (fun _ => acc2))

/-- `BankTools.make_loan_payment`. -/
def make_loan_payment (now : String) (db : BankDB)
    (client_id loan_id from_account_id : String) (amount : ℚ) (method : String)
    (description : Option String) : ToolRun Transaction :=
  if amount ≤ 0 then (Except.error "Amount must be greater than zero", db)
  else
    match get_client db client_id with
    | none => (Except.error "Client not found", db)
    | some client =>
      if ¬ alistHasKey client.accounts from_account_id then
        (Except.error "Source account must belong to the client", db)
      else
        match alistLookup db.loans loan_id with
        | none => (Except.error "Loan not found", db)
        | some loan =>
          if loan.client_id ≠ client_id then
            (Except.error "Loan does not belong to the client", db)
          else
            match alistLookup client.accounts from_account_id with
            | none => (Except.error "Source account must belong to the client", db)
            | some acc =>
              if acc.status ≠ "active" then
                (Except.error "Account is not active", db)
              else if acc.balance.available < amount then
                (Except.error "Insufficient available balance", db)
              else
                let db1 := updateAccount db client_id from_account_id (fun a =>
                  { a with balance :=
                      { a.balance with available := round2 (a.balance.available - amount) } })
                let db2 := updateAccount db1 client_id from_account_id (fun a =>
                  { a with balance :=
                      { a.balance with current := round2 (a.balance.current - amount) } })
                let tx_id := generate_transaction_id db2
                let tx : Transaction :=
                  { transaction_id := tx_id
                    client_id := client_id
                    account_id := from_account_id
                    timestamp := now
                    type := "payment"
                    direction := "debit"
                    amount := round2 amount
                    currency := acc.currency
                    description := some (pyStrOr description ("Loan payment " ++ loan_id))
                    method := method
                    status := "posted"
                    merchant := none
                    related_transaction_id := none
                    exchange := none
                    fees := []
                    hold := none
                    balance_after := some (accountCurrent db2 client_id from_account_id) }
                let db3 := { db2 with
                  transactions := alistSet db2.transactions tx_id tx }
                let entry : LoanRepaymentHistoryEntry :=
                  { transaction_id := tx_id
                    posted_at := tx.timestamp
                    amount := tx.amount
                    currency := tx.currency
                    method := tx.method
                    principal_component := tx.amount
                    interest_component := 0
                    fees_component := 0 }
                let db4 := { db3 with loans := (alistModify db3.loans loan_id
                  (fun l => { l with
                    repayment_history := l.repayment_history ++ [entry] })) }
                (Except.ok tx, db4)

end Bank

/-- Token of the restricted arithmetic language accepted by the `calculate`
GENERIC tool. -/
inductive Tok where
  | num (q : ℚ)
  | plus
  | minus
  | star
  | slash
  | lparen
  | rparen
deriving DecidableEq, Repr

/-- Numeric value of a digit character. -/
def digitVal (c : Char) : ℕ := c.toNat - 48

/-- Value of a (possibly empty) digit run as a natural number. -/
def natOfDigits (l : List Char) : ℕ :=
  l.foldl (fun acc c => acc * 10 + digitVal c) 0

/-- Parse a run of digit and dot characters as a Python numeric literal
(at most one dot; at least one digit). -/
def numFromChars (cs : List Char) : Option ℚ :=
  let intPart := cs.takeWhile (fun c => c ≠ '.')
  let rest := cs.dropWhile (fun c => c ≠ '.')
  match rest with
  | [] => some ((natOfDigits intPart : ℚ))
  | _ :: fracPart =>
    if fracPart.any (fun c => c = '.') then none
    else if intPart = [] ∧ fracPart = [] then none
    else some ((natOfDigits intPart : ℚ) +
      (natOfDigits fracPart : ℚ) / ((10 : ℚ) ^ fracPart.length))

/-- Tokenizer for arithmetic expressions (fuelled; fuel bounds the number of
characters consumed). -/
def lexLoop : ℕ → List Char → Option (List Tok)
  | _, [] => some []
  | 0, _ :: _ => none
  | fuel + 1, c :: cs =>
    if c = ' ' then lexLoop fuel cs
    else if c = '+' then (lexLoop fuel cs).map (fun ts => Tok.plus :: ts)
    else if c = '-' then (lexLoop fuel cs).map (fun ts => Tok.minus :: ts)
    else if c = '*' then (lexLoop fuel cs).map (fun ts => Tok.star :: ts)
    else if c = '/' then (lexLoop fuel cs).map (fun ts => Tok.slash :: ts)
    else if c = '(' then (lexLoop fuel cs).map (fun ts => Tok.lparen :: ts)
    else if c = ')' then (lexLoop fuel cs).map (fun ts => Tok.rparen :: ts)
    else if c.isDigit ∨ c = '.' then
      let run := (c :: cs).takeWhile (fun d => d.isDigit ∨ d = '.')
      let rest := (c :: cs).dropWhile (fun d => d.isDigit ∨ d = '.')
      match numFromChars run with
      | none => none
      | some q => (lexLoop fuel rest).map (fun ts => Tok.num q :: ts)
    else none

mutual

/-- Additive level of the expression grammar. -/
def pExpr : ℕ → List Tok → Option (ℚ × List Tok)
  | 0, _ => none
  | fuel + 1, ts =>
    match pTerm fuel ts with
    | none => none
    | some (v, rest) => pExprRest fuel v rest

/-- Left-associated chain of `+` and `-`. -/
def pExprRest : ℕ → ℚ → List Tok → Option (ℚ × List Tok)
  | 0, _, _ => none
  | fuel + 1, v, Tok.plus :: ts =>
    match pTerm fuel ts with
    | none => none
    | some (w, rest) => pExprRest fuel (v + w) rest
  | fuel + 1, v, Tok.minus :: ts =>
    match pTerm fuel ts with
    | none => none
    | some (w, rest) => pExprRest fuel (v - w) rest
  | _ + 1, v, ts => some (v, ts)

/-- Multiplicative level of the expression grammar. -/
def pTerm : ℕ → List Tok → Option (ℚ × List Tok)
  | 0, _ => none
  | fuel + 1, ts =>
    match pFactor fuel ts with
    | none => none
    | some (v, rest) => pTermRest fuel v rest

/-- Left-associated chain of `*` and `/`; division by zero is a failure
(Python raises `ZeroDivisionError`). -/
def pTermRest : ℕ → ℚ → List Tok → Option (ℚ × List Tok)
  | 0, _, _ => none
  | fuel + 1, v, Tok.star :: ts =>
    match pFactor fuel ts with
    | none => none
    | some (w, rest) => pTermRest fuel (v * w) rest
  | fuel + 1, v, Tok.slash :: ts =>
    match pFactor fuel ts with
    | none => none
    | some (w, rest) => if w = 0 then none else pTermRest fuel (v / w) rest
  | _ + 1, v, ts => some (v, ts)

/-- Unary signs, numeric literals and parenthesised expressions. -/
def pFactor : ℕ → List Tok → Option (ℚ × List Tok)
  | 0, _ => none
  | fuel + 1, Tok.plus :: ts => pFactor fuel ts
  | fuel + 1, Tok.minus :: ts =>
    (pFactor fuel ts).map (fun vr => (-vr.1, vr.2))
  | _ + 1, Tok.num q :: ts => some (q, ts)
  | fuel + 1, Tok.lparen :: ts =>
    match pExpr fuel ts with
    | some (v, Tok.rparen :: rest) => some (v, rest)
    | _ => none
  | _, _ => none

end

/-- Evaluate an arithmetic expression string (the model of Python `eval` on
the whitelisted character set); `none` models an evaluation failure. -/
def evalArith (s : String) : Option ℚ :=
  match lexLoop s.toList.length s.toList with
  | none => none
  | some toks =>
    match pExpr (4 * toks.length + 8) toks with
    | some (v, []) => some v
    | _ => none

/-- Body of the GENERIC `calculate` tool, shared verbatim by the bank, travel,
railway and e-commerce toolkits: whitelist check, evaluation, rounding to two
decimals (Python then formats the number as a string; formatting is
abstracted away and the numeric value is returned). -/
def calculate_value (expression : String) : Except String ℚ :=
  if expression.toList.all (fun c => "0123456789+-*/(). ".contains c) then
    match evalArith expression with
    | none => Except.error "Invalid expression"
    | some v => Except.ok (round2 v)
  else Except.error "Invalid characters in expression"

namespace Bank

/-- Ascending insertion by a string key. -/
def insertAscBy {α : Type} (key : α → String) (x : α) : List α → List α
  | [] => [x]
  | y :: ys => if key x ≤ key y then x :: y :: ys else y :: insertAscBy key x ys

/-- Ascending sort by a string key (models `json.dumps(..., sort_keys=True)`
and Python `sorted`). -/
def sortAscBy {α : Type} (key : α → String) (l : List α) : List α :=
  l.foldr (insertAscBy key) []

/-- Descending insertion by a string key. -/
def insertDescBy {α : Type} (key : α → String) (x : α) : List α → List α
  | [] => [x]
  | y :: ys => if key y ≤ key x then x :: y :: ys else y :: insertDescBy key x ys

/-- Descending sort by a string key (models `list.sort(key=…, reverse=True)`).
Only the multiset of results matters for the theorems below. -/
def sortDescBy {α : Type} (key : α → String) (l : List α) : List α :=
  l.foldr (insertDescBy key) []

/-- `BankTools.find_client_id_by_email`. -/
def find_client_id_by_email (db : BankDB) (email : String) : Except String String :=
  match db.clients.find?
      (fun kv => kv.2.contact.email.toLower = email.toLower) with
  | some kv => Except.ok kv.1
  | none => Except.error "Client not found"

/-- `BankTools.get_client_details`. -/
def get_client_details (db : BankDB) (client_id : String) : Except String Client :=
  match get_client db client_id with
  | none => Except.error "Client not found"
  | some c => Except.ok c

/-- `BankTools.get_account_details`. -/
def get_account_details (db : BankDB) (account_id : String) : Except String Account :=
  match get_account_by_id db account_id with
  | none => Except.error "Account not found"
  | some ca => Except.ok ca.2

/-- `BankTools.get_card_details`. -/
def get_card_details (db : BankDB) (card_id : String) : Except String Card :=
  match get_card_by_id db card_id with
  | none => Except.error "Card not found"
  | some cc => Except.ok cc.2

/-- `BankTools.get_loan_details`. -/
def get_loan_details (db : BankDB) (loan_id : String) : Except String Loan :=
  match alistLookup db.loans loan_id with
  | none => Except.error "Loan not found"
  | some l => Except.ok l

/-- `BankTools.get_beneficiary_details`. -/
def get_beneficiary_details (db : BankDB) (beneficiary_id : String) :
    Except String Beneficiary :=
  match alistLookup db.beneficiaries beneficiary_id with
  | none => Except.error "Beneficiary not found"
  | some b => Except.ok b

/-- One row of the `list_client_accounts` summary. -/
structure AccountSummary where
  type : String
  status : String
  masked : String
  currency : String
deriving DecidableEq, Repr

/-- `BankTools.list_client_accounts` (the JSON string is abstracted as the
key-sorted summary list it serialises). -/
def list_client_accounts (db : BankDB) (client_id : String) :
    Except String (List (String × AccountSummary)) :=
  match get_client db client_id with
  | none => Except.error "Client not found"
  | some client =>
    Except.ok (sortAscBy (fun kv => kv.1)
      (client.accounts.map (fun kv =>
        (kv.1, AccountSummary.mk kv.2.type kv.2.status
          kv.2.account_number_masked kv.2.currency))))

/-- Display name of a beneficiary, following the `or`-chain of
`list_client_beneficiaries`. -/
def beneficiaryDisplay (b : Beneficiary) : String :=
  let joined := String.intercalate " "
    (((([b.name.first_name, b.name.last_name].filterMap id)).filter
      (fun s => s ≠ "")))
  pyStrOr b.name.display_name
    (pyStrOr b.name.business_name
      (if joined = "" then "Unnamed Beneficiary" else joined))

/-- `BankTools.list_client_beneficiaries` (JSON string abstracted as the
key-sorted association list it serialises). -/
def list_client_beneficiaries (db : BankDB) (client_id : String) :
    Except String (List (String × String)) :=
  match get_client db client_id with
  | none => Except.error "Client not found"
  | some client =>
    Except.ok (sortAscBy (fun kv => kv.1)
      (client.beneficiary_ids.filterMap (fun bid =>
        (alistLookup db.beneficiaries bid).map
          (fun b => (bid, beneficiaryDisplay b)))))

/-- `BankTools.get_recent_transactions`. -/
def get_recent_transactions (db : BankDB) (account_id : String) (limit : ℤ) :
    Except String (List Transaction) :=
  match get_account_by_id db account_id with
  | none => Except.error "Account not found"
  | some _ =>
    let txs := (db.transactions.map (fun kv => kv.2)).filter
      (fun tx => tx.account_id = account_id ∧
        (tx.status = "posted" ∨ tx.status = "pending"))
    Except.ok ((sortDescBy (fun tx => tx.timestamp) txs).take (max 0 limit).toNat)

/-- Arguments of `BankTools.search_transactions`. -/
structure SearchTransactionsArgs where
  client_id : String
  account_id : String
  start_date : Option String
  end_date : Option String
  min_amount : Option ℚ
  max_amount : Option ℚ
  transaction_type : Option String
  status : Option String
  merchant_name_contains : Option String
deriving DecidableEq, Repr

/-- Substring test on character lists, modelling Python `str.find(sub) != -1`. -/
def hasSubList (needle : List Char) : List Char → Bool
  | [] => needle.isEmpty
  | c :: rest => needle.isPrefixOf (c :: rest) || hasSubList needle rest

/-- Python truthiness of an optional string filter (`None` and `""` disable
the filter). -/
def truthy (o : Option String) : Option String :=
  match o with
  | some s => if s = "" then none else some s
  | none => none

/-- `BankTools.search_transactions`. -/
def search_transactions (db : BankDB) (args : SearchTransactionsArgs) :
    Except String (List Transaction) :=
  match get_client db args.client_id with
  | none => Except.error "Client not found"
  | some client =>
    match alistLookup client.accounts args.account_id with
    | none => Except.error "Account not found for this client"
    | some _ =>
      let in_range := fun (ts : String) =>
        (match truthy args.start_date with
         | some sd => decide (¬ ts < sd)
         | none => true) &&
        (match truthy args.end_date with
         | some ed => decide (¬ ed < ts)
         | none => true)
      let amount_ok := fun (a : ℚ) =>
        (match args.min_amount with
         | some m => decide (¬ a < m)
         | none => true) &&
        (match args.max_amount with
         | some m => decide (¬ m < a)
         | none => true)
      let m_sub := (truthy args.merchant_name_contains).map (fun s => s.toLower)
      let keep := fun (tx : Transaction) =>
        decide (tx.account_id = args.account_id) &&
        in_range tx.timestamp &&
        amount_ok tx.amount &&
        (match truthy args.transaction_type with
         | some t => decide (tx.type = t)
         | none => true) &&
        (match truthy args.status with
         | some s => decide (tx.status = s)
         | none => true) &&
        (match m_sub with
         | some sub =>
           hasSubList sub.toList
             (match tx.merchant with
              | some m => if m.name ≠ "" then m.name.toLower else ""
              | none => "").toList
         | none => true)
      let results := (db.transactions.map (fun kv => kv.2)).filter keep
      Except.ok (sortDescBy (fun tx => tx.timestamp) results)

/-- A READ or GENERIC tool invocation of the bank toolkit. -/
inductive ReadCall where
  | find_client_id_by_email (email : String)
  | get_client_details (client_id : String)
  | get_account_details (account_id : String)
  | get_card_details (card_id : String)
  | get_loan_details (loan_id : String)
  | get_beneficiary_details (beneficiary_id : String)
  | list_client_accounts (client_id : String)
  | list_client_beneficiaries (client_id : String)
  | get_recent_transactions (account_id : String) (limit : ℤ)
  | search_transactions (args : SearchTransactionsArgs)
  | calculate (expression : String)
  | transfer_to_human_agents (summary : String)
deriving DecidableEq, Repr

/-- Observation payload returned by a READ or GENERIC bank tool. -/
inductive ReadValue where
  | str (s : String)
  | client (c : Client)
  | account (a : Account)
  | card (c : Card)
  | loan (l : Loan)
  | beneficiary (b : Beneficiary)
  | accountsSummary (l : List (String × AccountSummary))
  | names (l : List (String × String))
  | txs (l : List Transaction)
  | num (q : ℚ)
deriving DecidableEq, Repr

/-- Dispatch of the READ and GENERIC bank tools, with the database threaded
through the call exactly as for WRITE tools.  The bodies of these tools
contain no assignment to any database object, so the translation returns the
input database in every branch, including every error branch. -/
def read_dispatch (db : BankDB) : ReadCall → Except String ReadValue × BankDB
  | ReadCall.find_client_id_by_email email =>
    ((find_client_id_by_email db email).map ReadValue.str, db)
  | ReadCall.get_client_details cid =>
    ((get_client_details db cid).map ReadValue.client, db)
  | ReadCall.get_account_details aid =>
    ((get_account_details db aid).map ReadValue.account, db)
  | ReadCall.get_card_details cid =>
    ((get_card_details db cid).map ReadValue.card, db)
  | ReadCall.get_loan_details lid =>
    ((get_loan_details db lid).map ReadValue.loan, db)
  | ReadCall.get_beneficiary_details bid =>
    ((get_beneficiary_details db bid).map ReadValue.beneficiary, db)
  | ReadCall.list_client_accounts cid =>
    ((list_client_accounts db cid).map ReadValue.accountsSummary, db)
  | ReadCall.list_client_beneficiaries cid =>
    ((list_client_beneficiaries db cid).map ReadValue.names, db)
  | ReadCall.get_recent_transactions aid limit =>
    ((get_recent_transactions db aid limit).map ReadValue.txs, db)
  | ReadCall.search_transactions args =>
    ((search_transactions db args).map ReadValue.txs, db)
  | ReadCall.calculate expr =>
    ((calculate_value expr).map ReadValue.num, db)
  | ReadCall.transfer_to_human_agents _ =>
    (Except.ok (ReadValue.str "Transfer successful"), db)

end Bank

namespace Travel

/-- A payment (or negative refund) entry of a booking (`BookingPayment`). -/
structure BookingPayment where
  payment_id : String
  amount : ℚ
deriving DecidableEq, Repr

/-- Identity of one traveller inside a booking (`BookingTravelerInfo`). -/
structure BookingTravelerInfo where
  first_name : String
  last_name : String
  dob : String
deriving DecidableEq, Repr

/-- Rooming configuration of a booking (`RoomingInfo`). -/
structure RoomingInfo where
  room_type : String
  occupancy : ℤ
deriving DecidableEq, Repr

/-- An add-on of a booking (`BookingAddOn`). -/
structure BookingAddOn where
  type : String
  description : String
  price : ℚ
deriving DecidableEq, Repr

/-- A booking (`Booking`). -/
structure Booking where
  booking_id : String
  package_id : String
  agent_id : String
  booking_date : String
  departure_date : String
  status : String
  travelers : List BookingTravelerInfo
  rooming : RoomingInfo
  add_ons : List BookingAddOn
  insurance : Option String
  payment_history : List BookingPayment
  total_price : ℚ
  notes : Option String
deriving DecidableEq, Repr

/-- A departure instance of a package (`PackageDeparture`). -/
structure PackageDeparture where
  status : String
  base_price : ℚ
  currency : String
  available_slots : ℤ
  early_bird_deadline : String
deriving DecidableEq, Repr

/-- A travel package (`Package`).  The purely descriptive catalogue fields
(title, destinations, itinerary, accommodations, transportation, activities,
policies, notes) are never read or written by the operations embedded here
and are omitted. -/
structure Package where
  package_id : String
  departures : List (String × PackageDeparture)
  managed_by_agents : List String
deriving DecidableEq, Repr

/-- A saved payment method of a traveller (`TravelerPaymentMethod`; the
optional brand and last-four metadata are never read by the embedded
operations and are omitted). -/
structure TravelerPaymentMethod where
  source : String
  payment_method_id : String
deriving DecidableEq, Repr

/-- A traveller (`Traveler`).  The descriptive profile fields (name, address,
contact, dob, passport, preferences, saved companions, memberships) are never
read or written by the operations embedded here and are omitted. -/
structure Traveler where
  traveler_id : String
  payment_methods : List (String × TravelerPaymentMethod)
  bookings : List Booking
deriving DecidableEq, Repr

/-- A day of availability of an agent (`AvailabilityDay`). -/
structure AvailabilityDay where
  slots : List String
  timezone : String
deriving DecidableEq, Repr

/-- A travel agent (`Agent`).  Descriptive profile fields (name, contact,
agency, certifications, languages, regions, commission, employment status,
notes) are never read or written by the embedded operations and are
omitted. -/
structure Agent where
  agent_id : String
  assigned_travelers : List String
  managed_packages : List String
  bookings_handled : List String
  availability : List (String × AvailabilityDay)
deriving DecidableEq, Repr

/-- The travel agency database (`TravelAgencyDB`). -/
structure TravelAgencyDB where
  packages : List (String × Package)
  travelers : List (String × Traveler)
  agents : List (String × Agent)
deriving DecidableEq, Repr

/-- Result of a travel tool call. -/
abbrev ToolRun (α : Type) := Except String α × TravelAgencyDB

/-- `TravelAgencyTools._get_booking`: scan travellers in insertion order and
each traveller's bookings in list order; return the owning traveller id and
the booking. -/
def get_booking (db : TravelAgencyDB) (booking_id : String) :
    Option (String × Booking) :=
  db.travelers.findSome? (fun kv =>
    (kv.2.bookings.find? (fun b => b.booking_id = booking_id)).map
      (fun b => (kv.1, b)))

/-- `TravelAgencyTools._get_new_booking_id`: try `TAU001`, `TAU002`, `TAU003`
in order, returning the first id not used by any booking of any traveller. -/
def get_new_booking_id (db : TravelAgencyDB) : Except String String :=
  match get_booking db "TAU001" with
  | none => Except.ok "TAU001"
  | some _ =>
    match get_booking db "TAU002" with
    | none => Except.ok "TAU002"
    | some _ =>
      match get_booking db "TAU003" with
      | none => Except.ok "TAU003"
      | some _ => Except.error "Too many bookings created"

/-- Replace the first booking with the given id in a list of bookings
(mirrors mutating the single booking object returned by `_get_booking`). -/
def replaceBooking : List Booking → String → Booking → List Booking
  | [], _, _ => []
  | b :: bs, bid, nb =>
    if b.booking_id = bid then nb :: bs else b :: replaceBooking bs bid nb

/-- In-place mutation of the booking with the given id owned by the given
traveller. -/
def updateBooking (db : TravelAgencyDB) (traveler_id booking_id : String)
    (nb : Booking) : TravelAgencyDB :=
  { db with travelers := (alistModify db.travelers traveler_id
      (fun t => { t with bookings := replaceBooking t.bookings booking_id nb })) }

/-- `TravelAgencyTools.cancel_booking`.  There is no check of the current
booking status: refunds negating every entry of the current payment history
are appended, the status is set to `cancelled`, and the departure slots are
restored (the slot restore is wrapped in `try/except KeyError`, so a missing
departure date only logs a warning). -/
def cancel_booking (db : TravelAgencyDB) (booking_id : String) : ToolRun Booking :=
  match get_booking db booking_id with
  | none => (Except.error "Booking not found", db)
  | some (tid, booking) =>
    match alistLookup db.packages booking.package_id with
    | none => (Except.error "Package not found", db)
    | some pkg =>
      let refunds := booking.payment_history.map
        (fun p => BookingPayment.mk p.payment_id (-p.amount))
      let nb := { booking with
        payment_history := booking.payment_history ++ refunds
        status := "cancelled" }
      let db1 := updateBooking db tid booking_id nb
      let db2 :=
        if alistHasKey pkg.departures booking.departure_date then
          { db1 with packages := (alistModify db1.packages booking.package_id
              (fun p => { p with departures :=
                (alistModify p.departures booking.departure_date
                  (fun d => { d with available_slots :=
                    d.available_slots + booking.travelers.length })) })) }
        else db1
      (Except.ok nb, db2)

/-- A GENERIC tool invocation of the travel toolkit. -/
inductive GenericCall where
  | calculate (expression : String)
  | transfer_to_human_agents (summary : String)
deriving DecidableEq, Repr

/-- Dispatch of the GENERIC travel tools (`calculate` and
`transfer_to_human_agents`), database threaded through unchanged: their
bodies never mention the database. -/
def generic_dispatch (db : TravelAgencyDB) :
    GenericCall → Except String (Sum ℚ String) × TravelAgencyDB
  | GenericCall.calculate expr => ((calculate_value expr).map Sum.inl, db)
  | GenericCall.transfer_to_human_agents _ =>
    (Except.ok (Sum.inr "Transfer successful"), db)

end Travel

namespace Railway

/-- A payment (or negative refund) entry of a reservation (`RailPayment`). -/
structure RailPayment where
  payment_id : String
  amount : ℚ
deriving DecidableEq, Repr

/-- A passenger (`Passenger`). -/
structure Passenger where
  first_name : String
  last_name : String
  dob : String
deriving DecidableEq, Repr

/-- A saved payment method (`CardPayment` / `WalletPayment` / `OtherPayment`,
a tagged union discriminated by `source`; a wallet stores a whole-dollar
integer balance).  The card brand and last-four metadata are never read by
the embedded operations and are omitted. -/
inductive PayMethod where
  | card (id : String)
  | wallet (id : String) (amount : ℤ)
  | other (id : String)
deriving DecidableEq, Repr

/-- The `source` discriminant of a payment method. -/
def PayMethod.source : PayMethod → String
  | PayMethod.card _ => "card"
  | PayMethod.wallet _ _ => "wallet"
  | PayMethod.other _ => "other"

/-- Wallet balance of a payment method (only meaningful for wallets). -/
def PayMethod.walletAmount : PayMethod → ℤ
  | PayMethod.wallet _ a => a
  | _ => 0

/-- A train segment stored in a reservation (`ReservationTrainSegment`). -/
structure ReservationTrainSegment where
  origin : String
  destination : String
  train_number : String
  date : String
  coach : String
  seat_numbers : List String
  price : ℤ
deriving DecidableEq, Repr

/-- A train reservation (`TrainReservation`). -/
structure TrainReservation where
  reservation_id : String
  user_id : String
  origin : String
  destination : String
  trip_type : String
  trains : List ReservationTrainSegment
  passengers : List Passenger
  payment_history : List RailPayment
  created_at : String
  total_bags : ℤ
  bikes : ℤ
  meal_preference : String
  insurance : String
  pnr : String
  status : String
deriving DecidableEq, Repr

/-- A railway user (`RailUser`).  Descriptive profile fields (name, address,
email, dob, saved passengers, railcards) are never read or written by the
embedded operations and are omitted. -/
structure RailUser where
  user_id : String
  payment_methods : List (String × PayMethod)
  membership : String
  reservations : List String
deriving DecidableEq, Repr

/-- Per-date status of a train (`TrainDateStatus`, a tagged union; the
platform and actual-time details are never read by the embedded operations
and are omitted). -/
inductive TrainDateStatus where
  | onTime
  | delayed
  | cancelled
deriving DecidableEq, Repr

/-- A train (`Train`). -/
structure Train where
  train_number : String
  train_name : String
  origin : String
  destination : String
  service_type : String
  scheduled_departure_time_local : String
  scheduled_arrival_time_local : String
  dates : List (String × TrainDateStatus)
deriving DecidableEq, Repr

/-- The railway database (`TrainDB`). -/
structure TrainDB where
  trains : List (String × Train)
  users : List (String × RailUser)
  reservations : List (String × TrainReservation)
deriving DecidableEq, Repr

/-- Result of a railway tool call. -/
abbrev ToolRun (α : Type) := Except String α × TrainDB

/-- Requested train of a booking (`TrainInfo`). -/
structure TrainInfo where
  train_number : String
  date : String
deriving DecidableEq, Repr

/-- `RailwayTools._get_new_reservation_id`. -/
def get_new_reservation_id (db : TrainDB) : Except String String :=
  if ¬ alistHasKey db.reservations "TRN001" then Except.ok "TRN001"
  else if ¬ alistHasKey db.reservations "TRN002" then Except.ok "TRN002"
  else if ¬ alistHasKey db.reservations "TRN003" then Except.ok "TRN003"
  else Except.error "Too many reservations"

/-- `RailwayTools._get_new_pnr`. -/
def get_new_pnr (db : TrainDB) : Except String String :=
  let used := db.reservations.map (fun kv => kv.2.pnr)
  if ¬ used.contains "PNR1AA" then Except.ok "PNR1AA"
  else if ¬ used.contains "PNR2BB" then Except.ok "PNR2BB"
  else if ¬ used.contains "PNR3CC" then Except.ok "PNR3CC"
  else Except.error "Too many PNRs"

/-- `RailwayTools._coach_for_class` (a `KeyError` on an unknown class is
modelled as `none`). -/
def coach_for_class (travel_class : String) : Option String :=
  if travel_class = "sleeper" then some "S1"
  else if travel_class = "ac_2_tier" then some "A1"
  else if travel_class = "first_class" then some "FC1"
  else none

/-- `RailwayTools._compute_segment_price` (a `KeyError` on an unknown service
type or class is modelled as `none`). -/
def compute_segment_price (service_type travel_class : String) : Option ℤ :=
  if service_type = "high_speed" then
    if travel_class = "sleeper" then some 120
    else if travel_class = "ac_2_tier" then some 90
    else if travel_class = "first_class" then some 150
    else none
  else if service_type = "express" then
    if travel_class = "sleeper" then some 80
    else if travel_class = "ac_2_tier" then some 65
    else if travel_class = "first_class" then some 110
    else none
  else if service_type = "regional" then
    if travel_class = "sleeper" then some 50
    else if travel_class = "ac_2_tier" then some 40
    else if travel_class = "first_class" then some 75
    else none
  else none

/-- `RailwayTools._apply_membership_discount`: 10% for gold, 5% for silver,
otherwise none, rounded to two decimals. -/
def apply_membership_discount (amount : ℚ) (user : RailUser) : ℚ :=
  let rate : ℚ :=
    if user.membership = "gold" then 1/10
    else if user.membership = "silver" then 1/20
    else 0
  round2 (amount * (1 - rate))

/-- Simple seat assignment of `book_train_reservation`: consecutive seat
numbers starting at 21, one per passenger. -/
def seatNumbers (num_pax : ℕ) : List String :=
  (List.range num_pax).map (fun i => toString (21 + i))

/-- Segment-building loop of `book_train_reservation`: validate each
requested train and accumulate segments and the fare total.  Every failure
here happens before any database mutation. -/
def buildSegments (db : TrainDB) (travel_class : String) (num_pax : ℕ) :
    List TrainInfo → Except String (List ReservationTrainSegment × ℤ)
  | [] => Except.ok ([], 0)
  | tinfo :: rest =>
    match alistLookup db.trains tinfo.train_number with
    | none => Except.error "Train not found"
    | some train =>
      match alistLookup train.dates tinfo.date with
      | none => Except.error "Train not found on date"
      | some date_status =>
        if date_status = TrainDateStatus.cancelled then
          Except.error "Train is cancelled on date"
        else
          match compute_segment_price train.service_type travel_class with
          | none => Except.error "KeyError"
          | some price_each =>
            match coach_for_class travel_class with
            | none => Except.error "KeyError"
            | some coach =>
              let seg : ReservationTrainSegment :=
                { origin := train.origin
                  destination := train.destination
                  train_number := tinfo.train_number
                  date := tinfo.date
                  coach := coach
                  seat_numbers := seatNumbers num_pax
                  price := price_each }
              match buildSegments db travel_class num_pax rest with
              | Except.error e => Except.error e
              | Except.ok (segs, fare) =>
                Except.ok (seg :: segs, price_each * num_pax + fare)

/-- Payment-validation loop of `book_train_reservation`: every payment id
must exist, and wallet payments must be whole dollars within the wallet
balance (checked against the pre-call balance). -/
def validatePayments (user : RailUser) : List RailPayment → Except String Unit
  | [] => Except.ok ()
  | pay :: rest =>
    match alistLookup user.payment_methods pay.payment_id with
    | none => Except.error "Payment method not found"
    | some method =>
      if method.source = "wallet" then
        if 1/1000000000 < |pay.amount - (qtrunc pay.amount : ℚ)| then
          Except.error "Wallet payments must be in whole dollars"
        else if method.walletAmount < qtrunc pay.amount then
          Except.error "Not enough balance in wallet"
        else validatePayments user rest
      else validatePayments user rest

/-- Wallet-deduction loop of `book_train_reservation`: deduct each wallet
payment from the live wallet object (successive payments against the same
wallet deduct cumulatively). -/
def deductWallets (db : TrainDB) (user_id : String) :
    List RailPayment → TrainDB
  | [] => db
  | pay :: rest =>
    let db1 := { db with users := (alistModify db.users user_id (fun u =>
      { u with payment_methods := (alistModify u.payment_methods pay.payment_id
          (fun m =>
            match m with
            | PayMethod.wallet i a => PayMethod.wallet i (a - qtrunc pay.amount)
            | m2 => m2)) })) }
    deductWallets db1 user_id rest

/-- Arguments of `RailwayTools.book_train_reservation`. -/
structure BookArgs where
  user_id : String
  origin : String
  destination : String
  trip_type : String
  travel_class : String
  trains : List TrainInfo
  passengers : List Passenger
  payment_methods : List RailPayment
  total_bags : ℤ
  bikes : ℤ
  meal_preference : String
  insurance : String
deriving DecidableEq, Repr

/-- `RailwayTools.book_train_reservation`.  All validation (user, fresh ids,
trains, fare, payment methods, wallet balances, payment-sum check) happens
before the wallet deductions and the reservation insert, which are the only
mutations. -/
def book_train_reservation (db : TrainDB) (args : BookArgs) :
    ToolRun TrainReservation :=
  match alistLookup db.users args.user_id with
  | none => (Except.error "User not found", db)
  | some user =>
    match get_new_reservation_id db with
    | Except.error e => (Except.error e, db)
    | Except.ok reservation_id =>
      match get_new_pnr db with
      | Except.error e => (Except.error e, db)
      | Except.ok pnr =>
        let num_pax := args.passengers.length
        match buildSegments db args.travel_class num_pax args.trains with
        | Except.error e => (Except.error e, db)
        | Except.ok (segments, fare_total) =>
          let fare_after_discount :=
            apply_membership_discount (fare_total : ℚ) user
          let insurance_fee : ℤ :=
            if args.insurance = "yes" then 20 * num_pax else 0
          let extra_bags : ℤ := max 0 (args.total_bags - num_pax)
          let bags_fee : ℤ := 15 * extra_bags
          let bikes_fee : ℤ := 10 * args.bikes
          let total_price := round2 (fare_after_discount +
            (insurance_fee : ℚ) + (bags_fee : ℚ) + (bikes_fee : ℚ))
          match validatePayments user args.payment_methods with
          | Except.error e => (Except.error e, db)
          | Except.ok _ =>
            let total_payment :=
              round2 ((args.payment_methods.map (fun p => p.amount)).sum)
            if 1/1000000000 < |total_payment - total_price| then
              (Except.error "Payment amount does not add up", db)
            else
              let db1 := deductWallets db args.user_id args.payment_methods
              let reservation : TrainReservation :=
                { reservation_id := reservation_id
                  user_id := args.user_id
                  origin := args.origin
                  destination := args.destination
                  trip_type := args.trip_type
                  trains := segments
                  passengers := args.passengers
                  payment_history := args.payment_methods
                  created_at := "2024-05-15T15:00:00"
                  total_bags := args.total_bags
                  bikes := args.bikes
                  meal_preference := args.meal_preference
                  insurance := args.insurance
                  pnr := pnr
                  status := "confirmed" }
              let db2 := { db1 with reservations :=
                (alistSet db1.reservations reservation_id reservation) }
              let db3 := { db2 with users := (alistModify db2.users args.user_id
                (fun u => { u with
                  reservations := u.reservations ++ [reservation_id] })) }
              (Except.ok reservation, db3)

/-- `RailwayTools.cancel_reservation`.  As with the travel domain, there is
no check of the current reservation status: a negated copy of every payment
entry is appended and the status is set to `cancelled`. -/
def cancel_reservation (db : TrainDB) (reservation_id : String) :
    ToolRun TrainReservation :=
  match alistLookup db.reservations reservation_id with
  | none => (Except.error "Reservation not found", db)
  | some reservation =>
    let refunds := reservation.payment_history.map
      (fun p => RailPayment.mk p.payment_id (-p.amount))
    let nr := { reservation with
      payment_history := reservation.payment_history ++ refunds
      status := "cancelled" }
    (Except.ok nr,
      { db with reservations := alistSet db.reservations reservation_id nr })

end Railway

namespace Ecom

/-- A payment or refund entry of a sale ledger (`LedgerEntry`). -/
structure LedgerEntry where
  entry_kind : String
  value : ℚ
  instrument_id : String
deriving DecidableEq, Repr

/-- A line item of a sale (`SaleLine`; the descriptive label and attributes
are never read by the embedded operations and are omitted, except the label
that is kept for identification). -/
structure SaleLine where
  label : String
  catalog_ref : String
  unit_sku : String
  unit_price : ℚ
deriving DecidableEq, Repr

/-- A delivery address (`Location` of the e-commerce data model). -/
structure Location where
  line1 : String
  line2 : String
  municipality : String
  nation : String
  region : String
  postal_code : String
deriving DecidableEq, Repr

/-- A sale (`Sale`; shipment tracking data is never read or written by the
embedded operations and is omitted). -/
structure Sale where
  sale_ref : String
  account_key : String
  delivery : Location
  lines : List SaleLine
  state : String
  ledger : List LedgerEntry
deriving DecidableEq, Repr

/-- A funding instrument of an account (`FundingSource`; issuer metadata is
never read by the embedded operations and is omitted). -/
structure FundingSource where
  origin : String
  instrument_id : String
deriving DecidableEq, Repr

/-- A customer account (`Account` of the e-commerce data model; the person
name, address and contact email are never read or written by the embedded
operations and are omitted). -/
structure Account where
  account_key : String
  funding_sources : List (String × FundingSource)
  purchases : List String
deriving DecidableEq, Repr

/-- A specific offering (`Offering`; the descriptive attributes are never
read by the embedded operations and are omitted). -/
structure Offering where
  unit_sku : String
  in_stock : Bool
  unit_price : ℚ
deriving DecidableEq, Repr

/-- A catalogue group (`CatalogueGroup`). -/
structure CatalogueGroup where
  title : String
  group_ref : String
  offerings : List (String × Offering)
deriving DecidableEq, Repr

/-- The e-commerce database (`ECommerceDB`). -/
structure ECommerceDB where
  catalogue : List (String × CatalogueGroup)
  accounts : List (String × Account)
  sales : List (String × Sale)
deriving DecidableEq, Repr

/-- Result of an e-commerce tool call. -/
abbrev ToolRun (α : Type) := Except String α × ECommerceDB

/-- `ECommerceTools._get_funding_source` (as an `Except`). -/
def get_funding_source (db : ECommerceDB) (account_key instrument_id : String) :
    Except String FundingSource :=
  match alistLookup db.accounts account_key with
  | none => Except.error "Account not found"
  | some account =>
    match alistLookup account.funding_sources instrument_id with
    | none => Except.error "Funding source not found"
    | some fs => Except.ok fs

/-- `ECommerceTools.cancel_pending_sale`.  A sale whose state is not exactly
`pending` is rejected before any mutation.  The Python body appends refund
entries while iterating over the ledger; the appended entries are refunds and
are themselves skipped by the `payment` filter, so the net effect is a single
pass over the original ledger. -/
def cancel_pending_sale (db : ECommerceDB) (sale_ref reason : String) :
    ToolRun Sale :=
  match alistLookup db.sales sale_ref with
  | none => (Except.error "Sale not found", db)
  | some sale =>
    if sale.state ≠ "pending" then
      (Except.error "Non-pending sale cannot be cancelled", db)
    else if reason ≠ "no longer needed" ∧ reason ≠ "ordered by mistake" then
      (Except.error "Invalid reason", db)
    else
      let refunds := (sale.ledger.filter
        (fun e => e.entry_kind = "payment")).map
          (fun e => LedgerEntry.mk "refund" e.value e.instrument_id)
      let ns := { sale with
        ledger := sale.ledger ++ refunds
        state := "cancelled" }
      (Except.ok ns, { db with sales := alistSet db.sales sale_ref ns })

/-- The price-difference loop of `exchange_delivered_sale_lines`: for each
old/new SKU pair, find the first matching sale line, resolve the new offering
inside the same catalogue group, require it to be in stock, and accumulate
the price difference.  No mutation happens here. -/
def exchangeDiff (db : ECommerceDB) (sale : Sale) :
    List (String × String) → Except String ℚ
  | [] => Except.ok 0
  | (old_sku, new_sku) :: rest =>
    match sale.lines.find? (fun ln => ln.unit_sku = old_sku) with
    | none => Except.error "Item not found"
    | some line =>
      match alistLookup db.catalogue line.catalog_ref with
      | none => Except.error "Catalogue group not found"
      | some group =>
        match alistLookup group.offerings new_sku with
        | none => Except.error "Offering not found"
        | some new_offering =>
          if ¬ new_offering.in_stock then
            Except.error "New item not found or not in stock"
          else
            match exchangeDiff db sale rest with
            | Except.error e => Except.error e
            | Except.ok acc =>
              Except.ok (new_offering.unit_price - line.unit_price + acc)

/-- `ECommerceTools.exchange_delivered_sale_lines`.  After all validation the
only mutation is setting the sale state to `exchange requested`: the computed
price difference is deliberately not recorded in the ledger, and the lines
and delivery address are untouched. -/
def exchange_delivered_sale_lines (db : ECommerceDB) (sale_ref : String)
    (unit_skus_old unit_skus_new : List String) (instrument_id : String) :
    ToolRun Sale :=
  match alistLookup db.sales sale_ref with
  | none => (Except.error "Sale not found", db)
  | some sale =>
    if sale.state ≠ "delivered" then
      (Except.error "Non-delivered sale cannot be exchanged", db)
    else if unit_skus_old.length ≠ unit_skus_new.length then
      (Except.error "The number of items to be exchanged should match", db)
    else if ¬ unit_skus_old.all (fun sku =>
        unit_skus_old.count sku ≤ (sale.lines.map
          (fun ln => ln.unit_sku)).count sku) then
      (Except.error "Number of items not found", db)
    else
      match get_funding_source db sale.account_key instrument_id with
      | Except.error e => (Except.error e, db)
      | Except.ok _ =>
        match exchangeDiff db sale (unit_skus_old.zip unit_skus_new) with
        | Except.error e => (Except.error e, db)
        | Except.ok _diff =>
          let ns := { sale with state := "exchange requested" }
          (Except.ok ns, { db with sales := alistSet db.sales sale_ref ns })

end Ecom

namespace Green

/-- One reply of the white agent, as seen by `ask_agent_to_solve`: the
conversation identifier carried by the a2a message (`Message.context_id`,
which may be null) and the decoded action forwarded to `Environment.step`. -/
structure AgentReply where
  context_id : Option String
  action : String
deriving DecidableEq, Repr

/-- The context-identifier handling of the `ask_agent_to_solve` loop, folded
over the sequence of replies the white agent produces (the environment ends
the conversation by exhausting this sequence; parsing of the reply text is
not modelled).  For each reply, in order: if the stored identifier is still
`none` it is overwritten with the identifier of the reply; otherwise the
reply identifier must equal the stored one, a mismatch stopping the loop
fatally (`AssertionError`) before the action reaches `Environment.step`.
Returns the actions fed to `Environment.step`, in order, and whether the
loop died on a mismatch. -/
def runLoop : Option String → List AgentReply → List String × Bool
  | _, [] => ([], false)
  | none, r :: rest =>
    let res := runLoop r.context_id rest
    (r.action :: res.1, res.2)
  | some c, r :: rest =>
    if r.context_id = some c then
      let res := runLoop (some c) rest
      (r.action :: res.1, res.2)
    else ([], true)

end Green

/-- Error discriminant of a tool result. -/
def isErr {α : Type} : Except String α → Bool
  | Except.error _ => true
  | Except.ok _ => false

namespace Bank

/-- A WRITE tool invocation of the bank toolkit (all nine WRITE tools). -/
inductive WriteCall where
  | initiate_internal_transfer (client_id from_account_id to_account_id : String)
      (amount : ℚ) (description : Option String)
  | add_beneficiary (args : AddBeneficiaryArgs)
  | verify_beneficiary (client_id beneficiary_id method : String)
  | initiate_transfer_to_beneficiary
      (client_id from_account_id beneficiary_id : String) (amount : ℚ)
      (method : String) (description : Option String)
  | freeze_card (card_id reason : String)
  | unfreeze_card (card_id : String)
  | freeze_account (account_id reason : String)
  | unfreeze_account (account_id : String)
  | make_loan_payment (client_id loan_id from_account_id : String) (amount : ℚ)
      (method : String) (description : Option String)
deriving DecidableEq, Repr

/-- Value returned by a WRITE bank tool. -/
inductive WriteValue where
  | txs (l : List Transaction)
  | tx (t : Transaction)
  | beneficiary (b : Beneficiary)
  | card (c : Card)
  | account (a : Account)
deriving DecidableEq, Repr

/-- Dispatch of the nine WRITE bank tools. -/
def write_dispatch (now : String) (db : BankDB) :
    WriteCall → Except String WriteValue × BankDB
  | WriteCall.initiate_internal_transfer c f t a d =>
    let r := initiate_internal_transfer now db c f t a d
    (r.1.map WriteValue.txs, r.2)
  | WriteCall.add_beneficiary args =>
    let r := add_beneficiary now db args
    (r.1.map WriteValue.beneficiary, r.2)
  | WriteCall.verify_beneficiary c b m =>
    let r := verify_beneficiary now db c b m
    (r.1.map WriteValue.beneficiary, r.2)
  | WriteCall.initiate_transfer_to_beneficiary c f b a m d =>
    let r := initiate_transfer_to_beneficiary now db c f b a m d
    (r.1.map WriteValue.tx, r.2)
  | WriteCall.freeze_card c rsn =>
    let r := freeze_card db c rsn
    (r.1.map WriteValue.card, r.2)
  | WriteCall.unfreeze_card c =>
    let r := unfreeze_card db c
    (r.1.map WriteValue.card, r.2)
  | WriteCall.freeze_account a rsn =>
    let r := freeze_account db a rsn
    (r.1.map WriteValue.account, r.2)
  | WriteCall.unfreeze_account a =>
    let r := unfreeze_account db a
    (r.1.map WriteValue.account, r.2)
  | WriteCall.make_loan_payment c l f a m d =>
    let r := make_loan_payment now db c l f a m d
    (r.1.map WriteValue.tx, r.2)

theorem initiate_internal_transfer_error_frame (now : String) (db : BankDB)
    (c f t : String) (a : ℚ) (d : Option String) :
    isErr (initiate_internal_transfer now db c f t a d).1 = true →
    (initiate_internal_transfer now db c f t a d).2 = db := by
  unfold initiate_internal_transfer
  repeat' split
  all_goals intro h
  all_goals first | rfl | simp [isErr] at h

end Bank

namespace Bank

theorem add_beneficiary_error_frame (now : String) (db : BankDB)
    (args : AddBeneficiaryArgs) :
    isErr (add_beneficiary now db args).1 = true →
    (add_beneficiary now db args).2 = db := by
  unfold add_beneficiary
  repeat' split
  all_goals intro h
  all_goals first | rfl | simp [isErr] at h

theorem verify_beneficiary_error_frame (now : String) (db : BankDB)
    (c b m : String) :
    isErr (verify_beneficiary now db c b m).1 = true →
    (verify_beneficiary now db c b m).2 = db := by
  unfold verify_beneficiary
  repeat' split
  all_goals intro h
  all_goals first | rfl | simp [isErr] at h

theorem initiate_transfer_to_beneficiary_error_frame (now : String)
    (db : BankDB) (c f b : String) (a : ℚ) (m : String) (d : Option String) :
    isErr (initiate_transfer_to_beneficiary now db c f b a m d).1 = true →
    (initiate_transfer_to_beneficiary now db c f b a m d).2 = db := by
  unfold initiate_transfer_to_beneficiary
  repeat' split
  all_goals intro h
  all_goals first | rfl | simp [isErr] at h

theorem freeze_card_error_frame (db : BankDB) (c rsn : String) :
    isErr (freeze_card db c rsn).1 = true → (freeze_card db c rsn).2 = db := by
  unfold freeze_card
  repeat' split
  all_goals intro h
  all_goals first | rfl | simp [isErr] at h

theorem unfreeze_card_error_frame (db : BankDB) (c : String) :
    isErr (unfreeze_card db c).1 = true → (unfreeze_card db c).2 = db := by
  unfold unfreeze_card
  repeat' split
  all_goals intro h
  all_goals first | rfl | simp [isErr] at h

theorem freeze_account_error_frame (db : BankDB) (a rsn : String) :
    isErr (freeze_account db a rsn).1 = true →
    (freeze_account db a rsn).2 = db := by
  unfold freeze_account
  repeat' split
  all_goals intro h
  all_goals first | rfl | simp [isErr] at h

theorem unfreeze_account_error_frame (db : BankDB) (a : String) :
    isErr (unfreeze_account db a).1 = true →
    (unfreeze_account db a).2 = db := by
  unfold unfreeze_account
  repeat' split
  all_goals intro h
  all_goals first | rfl | simp [isErr] at h

theorem make_loan_payment_error_frame (now : String) (db : BankDB)
    (c l f : String) (a : ℚ) (m : String) (d : Option String) :
    isErr (make_loan_payment now db c l f a m d).1 = true →
    (make_loan_payment now db c l f a m d).2 = db := by
  unfold make_loan_payment
  repeat' split
  all_goals intro h
  all_goals first | rfl | simp [isErr] at h

theorem isErr_map {α β : Type} (f : α → β) (e : Except String α) :
    isErr (e.map f) = isErr e := by
  cases e <;> rfl

theorem write_dispatch_error_frame (now : String) (db : BankDB)
    (call : WriteCall) :
    isErr (write_dispatch now db call).1 = true →
    (write_dispatch now db call).2 = db := by
  cases call with
  | initiate_internal_transfer c f t a d =>
    simpa [write_dispatch, isErr_map] using
      initiate_internal_transfer_error_frame now db c f t a d
  | add_beneficiary args =>
    simpa [write_dispatch, isErr_map] using
      add_beneficiary_error_frame now db args
  | verify_beneficiary c b m =>
    simpa [write_dispatch, isErr_map] using
      verify_beneficiary_error_frame now db c b m
  | initiate_transfer_to_beneficiary c f b a m d =>
    simpa [write_dispatch, isErr_map] using
      initiate_transfer_to_beneficiary_error_frame now db c f b a m d
  | freeze_card c rsn =>
    simpa [write_dispatch, isErr_map] using freeze_card_error_frame db c rsn
  | unfreeze_card c =>
    simpa [write_dispatch, isErr_map] using unfreeze_card_error_frame db c
  | freeze_account a rsn =>
    simpa [write_dispatch, isErr_map] using freeze_account_error_frame db a rsn
  | unfreeze_account a =>
    simpa [write_dispatch, isErr_map] using unfreeze_account_error_frame db a
  | make_loan_payment c l f a m d =>
    simpa [write_dispatch, isErr_map] using
      make_loan_payment_error_frame now db c l f a m d

end Bank

namespace Railway

theorem book_train_reservation_error_frame (db : TrainDB) (args : BookArgs) :
    isErr (book_train_reservation db args).1 = true →
    (book_train_reservation db args).2 = db := by
  unfold book_train_reservation
  dsimp only
  repeat' split
  all_goals intro h
  all_goals first | rfl | simp [isErr] at h

end Railway

theorem alistSet_eq_modify {α : Type} (l : List (String × α)) (k : String)
    (v : α) (f : α → α) (h : alistLookup l k = some v) :
    alistSet l k (f v) = alistModify l k f := by
  induction l with
  | nil => simp [alistLookup] at h
  | cons hd tl ih =>
    by_cases hk : hd.1 = k
    · have : hd.2 = v := by
        simp [alistLookup, List.find?, hk] at h
        exact h
      cases hd with
      | mk k1 v1 =>
        simp_all [alistSet, alistModify]
    · simp only [alistLookup, List.find?] at h
      rw [show (decide (hd.1 = k)) = false by simp [hk]] at h
      cases hd with
      | mk k1 v1 =>
        simp only [alistSet, alistModify, if_neg hk]
        rw [ih (by simpa [alistLookup] using h)]

/-- Sum of the amounts of a list of booking payments. -/
def Travel.paymentsSum (l : List Travel.BookingPayment) : ℚ :=
  (l.map (fun p => p.amount)).sum

/-- Sum of the amounts of a list of rail payments. -/
def Railway.paymentsSum (l : List Railway.RailPayment) : ℚ :=
  (l.map (fun p => p.amount)).sum

theorem Travel.bookingPaymentsSum_append_neg (l : List Travel.BookingPayment) :
    Travel.paymentsSum
      (l ++ l.map (fun p => Travel.BookingPayment.mk p.payment_id (-p.amount))) = 0 := by
  induction l with
  | nil => simp [Travel.paymentsSum]
  | cons hd tl ih =>
    simp only [Travel.paymentsSum, List.map_append, List.map_map, List.sum_append,
      List.map_cons, List.sum_cons] at ih ⊢
    linarith

theorem Railway.railPaymentsSum_append_neg (l : List Railway.RailPayment) :
    Railway.paymentsSum
      (l ++ l.map (fun p => Railway.RailPayment.mk p.payment_id (-p.amount))) = 0 := by
  induction l with
  | nil => simp [Railway.paymentsSum]
  | cons hd tl ih =>
    simp only [Railway.paymentsSum, List.map_append, List.map_map, List.sum_append,
      List.map_cons, List.sum_cons] at ih ⊢
    linarith

namespace Travel

/-- Characterisation of a successful `cancel_booking` call: whatever the
current status of the booking, the returned booking carries the old payment
history followed by a negated copy of each entry, and status `cancelled`. -/
theorem cancel_booking_ok (db : TravelAgencyDB) (bid tid : String) (b : Booking)
    (pkg : Package) (hb : get_booking db bid = some (tid, b))
    (hp : alistLookup db.packages b.package_id = some pkg) :
    (cancel_booking db bid).1 = Except.ok { b with
      payment_history := b.payment_history ++ b.payment_history.map
        (fun p => BookingPayment.mk p.payment_id (-p.amount))
      status := "cancelled" } := by
  simp [cancel_booking, hb, hp]

end Travel

namespace Railway

/-- Characterisation of `cancel_reservation`: whatever the current status of
the reservation, the returned reservation carries the old payment history
followed by a negated copy of each entry, status `cancelled`, and the store
is updated with exactly that reservation. -/
theorem cancel_reservation_ok (db : TrainDB) (rid : String)
    (r : TrainReservation) (hr : alistLookup db.reservations rid = some r) :
    (cancel_reservation db rid).1 = Except.ok { r with
      payment_history := r.payment_history ++ r.payment_history.map
        (fun p => RailPayment.mk p.payment_id (-p.amount))
      status := "cancelled" } ∧
    (cancel_reservation db rid).2 = { db with
      reservations := alistSet db.reservations rid { r with
        payment_history := r.payment_history ++ r.payment_history.map
          (fun p => RailPayment.mk p.payment_id (-p.amount))
        status := "cancelled" } } := by
  constructor <;> simp [cancel_reservation, hr]

end Railway

namespace Ecom

/-- A sale whose state is not `pending` is rejected by `cancel_pending_sale`
with no change to the database, whatever the reason argument. -/
theorem cancel_pending_sale_rejects_nonpending (db : ECommerceDB)
    (sale_ref reason : String) (sale : Sale)
    (hs : alistLookup db.sales sale_ref = some sale)
    (hstate : sale.state ≠ "pending") :
    isErr (cancel_pending_sale db sale_ref reason).1 = true ∧
    (cancel_pending_sale db sale_ref reason).2 = db := by
  constructor <;> simp [cancel_pending_sale, hs, hstate, isErr]

/-- Frame property of `exchange_delivered_sale_lines`: on success the final
database is the input database with only the state of the targeted sale
replaced by `exchange requested`. -/
theorem exchange_success_frame (db : ECommerceDB) (sale_ref : String)
    (unit_skus_old unit_skus_new : List String) (instrument_id : String) :
    isErr (exchange_delivered_sale_lines db sale_ref unit_skus_old
      unit_skus_new instrument_id).1 = false →
    (exchange_delivered_sale_lines db sale_ref unit_skus_old
      unit_skus_new instrument_id).2 =
    { db with sales := (alistModify db.sales sale_ref
        (fun s => { s with state := "exchange requested" })) } := by
  unfold exchange_delivered_sale_lines
  dsimp only
  repeat' split
  all_goals intro h
  all_goals try simp [isErr] at h
  all_goals
    (dsimp only
     congr 1
     exact alistSet_eq_modify _ _ _
       (fun s : Sale => { s with state := "exchange requested" }) (by assumption))

end Ecom

namespace Bank

theorem updateAccount_comp (db : BankDB) (c a : String) (f g : Account → Account) :
    updateAccount (updateAccount db c a f) c a g =
    updateAccount db c a (fun x => g (f x)) := by
  unfold updateAccount
  simp only [alistModify_modify_self]

theorem get_client_updateAccount (db : BankDB) (c a : String)
    (f : Account → Account) :
    get_client (updateAccount db c a f) c = (get_client db c).map
      (fun cl => { cl with accounts := alistModify cl.accounts a f }) := by
  unfold get_client updateAccount
  simpa using alistLookup_modify_self db.clients c _

end Bank

namespace Green

/-- Once the stored identifier is `some c`, the loop steps exactly the
actions of the longest prefix of replies carrying identifier `c`, and dies
fatally exactly when some reply carries a different identifier. -/
theorem runLoop_some_spec (c : String) (rest : List AgentReply) :
    runLoop (some c) rest =
      ((rest.takeWhile (fun r => decide (r.context_id = some c))).map
        (fun r => r.action),
       rest.any (fun r => !decide (r.context_id = some c))) := by
  induction rest with
  | nil => simp [runLoop]
  | cons r rs ih =>
    by_cases h : r.context_id = some c
    · simp [runLoop, h, ih, List.takeWhile, List.any]
    · simp [runLoop, h, List.takeWhile, List.any]

end Green

namespace Bank

/-- Available balance of an account as stored in the database (`0` when the
account does not exist; only read at points where existence has already been
established). -/
def accountAvailable (db : BankDB) (client_id account_id : String) : ℚ :=
  (((get_client db client_id).bind
    (fun c => alistLookup c.accounts account_id)).map
      (fun a => a.balance.available)).getD 0

/-- Behaviour of `initiate_internal_transfer` when the source and destination
account ids coincide: because `from_acc` and `to_acc` alias the same account
object, the four balance writes cancel (for exact two-decimal data), no error
is raised, both returned transactions report the unchanged current balance,
and the current and available balances after the call equal the balances
before it. -/
theorem self_transfer_spec (now : String) (db : BankDB) (cid aid : String)
    (amount : ℚ) (d : Option String) (client : Client) (acc : Account)
    (hc : get_client db cid = some client)
    (ha : alistLookup client.accounts aid = some acc)
    (hact : acc.status = "active") (hcred : acc.type ≠ "credit")
    (hpos : 0 < amount) (hava : amount ≤ acc.balance.available)
    (hcamt : IsCents amount) (hcav : IsCents acc.balance.available)
    (hccur : IsCents acc.balance.current) :
    ∃ t1 t2,
      (initiate_internal_transfer now db cid aid aid amount d).1 =
        Except.ok [t1, t2] ∧
      t1.balance_after = some acc.balance.current ∧
      t2.balance_after = some acc.balance.current ∧
      t1.status = "posted" ∧ t2.status = "posted" ∧
      t1.direction = "debit" ∧ t2.direction = "credit" ∧
      accountCurrent (initiate_internal_transfer now db cid aid aid amount d).2
        cid aid = acc.balance.current ∧
      accountAvailable
        (initiate_internal_transfer now db cid aid aid amount d).2 cid aid =
        acc.balance.available := by
  have hn0 : ¬ amount ≤ 0 := not_le.mpr hpos
  have hnl : ¬ acc.balance.available < amount := not_lt.mpr hava
  have e1 : round2 (acc.balance.available - amount) =
      acc.balance.available - amount := round2_eq_self (hcav.sub hcamt)
  have e2 : round2 (acc.balance.current - amount) =
      acc.balance.current - amount := round2_eq_self (hccur.sub hcamt)
  have e3 : round2 acc.balance.available = acc.balance.available :=
    round2_eq_self hcav
  have e4 : round2 acc.balance.current = acc.balance.current :=
    round2_eq_self hccur
  unfold initiate_internal_transfer
  simp only [hc, ha, hact, hcred, hn0, hnl, ne_eq, not_true_eq_false,
    not_false_eq_true, if_false, if_true, ite_false, ite_true]
  rw [updateAccount_comp, updateAccount_comp, updateAccount_comp]
  refine ⟨_, _, rfl, ?_, ?_, rfl, rfl, rfl, rfl, ?_, ?_⟩
  · simp [accountCurrent, get_client_updateAccount, hc, alistLookup_modify_self,
      ha, e1, e2, sub_add_cancel, e3, e4]
  · simp [accountCurrent, get_client_updateAccount, hc, alistLookup_modify_self,
      ha, e1, e2, sub_add_cancel, e3, e4]
  · simp [accountCurrent, get_client, updateAccount, alistLookup_modify_self,
      show alistLookup db.clients cid = some client from hc,
      ha, e1, e2, sub_add_cancel, e3, e4]
  · simp [accountAvailable, get_client, updateAccount, alistLookup_modify_self,
      show alistLookup db.clients cid = some client from hc,
      ha, e1, e2, sub_add_cancel, e3, e4]

end Bank

namespace Bank

/-- The empty bank database. -/
def bankDB0 : BankDB := { clients := [], transactions := [], loans := [], beneficiaries := [] }

/-- A checking account with 500.00 current and available. -/
def acc1 : Account :=
  { account_id := "acc_1"
    type := "checking"
    currency := "USD"
    status := "active"
    account_number_masked := "****1111"
    routing_number := "110000001"
    balance := { current := 500, available := 500, on_hold := 0 }
    interest_rate_apr := none
    overdraft_limit := none
    opened_at := "2020-01-01T00:00:00Z"
    features := { checks_enabled := true, atm_access := true, online_banking := true } }

/-- A savings account with 100.00 current and available. -/
def acc2 : Account :=
  { account_id := "acc_2"
    type := "savings"
    currency := "USD"
    status := "active"
    account_number_masked := "****2222"
    routing_number := "110000001"
    balance := { current := 100, available := 100, on_hold := 0 }
    interest_rate_apr := none
    overdraft_limit := none
    opened_at := "2021-01-01T00:00:00Z"
    features := { checks_enabled := false, atm_access := true, online_banking := true } }

/-- A client owning the two accounts above. -/
def client1 : Client :=
  { client_id := "client_1"
    name := { first_name := "Jane", last_name := "Doe", middle_name := none }
    contact := { email := "jane@example.com", phone := "555-0100" }
    address :=
      { address1 := "1 Main St", address2 := "", city := "Springfield",
        state := "IL", zip := "62701", country := "USA" }
    accounts := [("acc_1", acc1), ("acc_2", acc2)]
    cards := []
    loan_ids := []
    beneficiary_ids := []
    created_at := "2019-01-01T00:00:00Z"
    kyc := { status := "verified", last_reviewed_at := "2023-01-01T00:00:00Z",
             tax_id_masked := "****1234" } }

/-- A bank database with one client, two accounts and no transactions. -/
def bankDB1 : BankDB :=
  { clients := [("client_1", client1)], transactions := [], loans := [],
    beneficiaries := [] }

/-- A transaction stored under the id `tx_0000002`. -/
def oddTx : Transaction :=
  { transaction_id := "tx_0000002"
    client_id := "client_1"
    account_id := "acc_1"
    timestamp := "2024-01-01T00:00:00Z"
    type := "deposit"
    direction := "credit"
    amount := 50
    currency := "USD"
    description := none
    method := "ATM"
    status := "posted"
    merchant := none
    related_transaction_id := none
    exchange := none
    fees := []
    hold := none
    balance_after := none }

/-- A bank database whose only stored transaction sits under the id
`tx_0000002`, so the table has length one. -/
def bankDB2 : BankDB :=
  { clients := [("client_1", client1)], transactions := [("tx_0000002", oddTx)],
    loans := [], beneficiaries := [] }

end Bank

namespace Travel

/-- A confirmed booking `TAU001` with one payment of 250.00. -/
def bookingA : Booking :=
  { booking_id := "TAU001"
    package_id := "pkg_1"
    agent_id := "agent_1"
    booking_date := "2024-05-01"
    departure_date := "24-06-01"
    status := "confirmed"
    travelers := [{ first_name := "Jane", last_name := "Doe", dob := "80-01-01" }]
    rooming := { room_type := "double", occupancy := 1 }
    add_ons := []
    insurance := none
    payment_history := [{ payment_id := "pm_1", amount := 250 }]
    total_price := 250
    notes := none }

/-- The booking above after one cancellation: a refund entry mirrors the
payment and the status is `cancelled`. -/
def bookingB : Booking :=
  { bookingA with
    status := "cancelled"
    payment_history :=
      [{ payment_id := "pm_1", amount := 250 }, { payment_id := "pm_1", amount := -250 }] }

/-- The package referenced by the bookings. -/
def pkg1 : Package :=
  { package_id := "pkg_1"
    departures := [("24-06-01",
      { status := "available", base_price := 250, currency := "USD",
        available_slots := 10, early_bird_deadline := "24-05-01" })]
    managed_by_agents := ["agent_1"] }

/-- A travel database holding the confirmed booking `TAU001`. -/
def travelDB1 : TravelAgencyDB :=
  { packages := [("pkg_1", pkg1)]
    travelers := [("trav_1",
      { traveler_id := "trav_1"
        payment_methods := [("pm_1", { source := "credit_card", payment_method_id := "pm_1" })]
        bookings := [bookingA] })]
    agents := [("agent_1",
      { agent_id := "agent_1", assigned_travelers := ["trav_1"],
        managed_packages := ["pkg_1"], bookings_handled := ["TAU001"],
        availability := [] })] }

/-- A travel database holding the already-cancelled booking `TAU001`. -/
def travelDB2 : TravelAgencyDB :=
  { packages := [("pkg_1", pkg1)]
    travelers := [("trav_1",
      { traveler_id := "trav_1"
        payment_methods := [("pm_1", { source := "credit_card", payment_method_id := "pm_1" })]
        bookings := [bookingB] })]
    agents := [("agent_1",
      { agent_id := "agent_1", assigned_travelers := ["trav_1"],
        managed_packages := ["pkg_1"], bookings_handled := ["TAU001"],
        availability := [] })] }

end Travel

namespace Railway

/-- The empty railway database. -/
def railDB0 : TrainDB := { trains := [], users := [], reservations := [] }

/-- A confirmed reservation `TRN001` with one payment of 100.00. -/
def resA : TrainReservation :=
  { reservation_id := "TRN001"
    user_id := "user_1"
    origin := "NYC"
    destination := "BOS"
    trip_type := "one_way"
    trains := [{ origin := "NYC", destination := "BOS", train_number := "HS123",
                 date := "2024-06-01", coach := "S1", seat_numbers := ["21"],
                 price := 100 }]
    passengers := [{ first_name := "Jane", last_name := "Doe", dob := "1980-01-01" }]
    payment_history := [{ payment_id := "card_1", amount := 100 }]
    created_at := "2024-05-15T15:00:00"
    total_bags := 1
    bikes := 0
    meal_preference := "none"
    insurance := "no"
    pnr := "PNR1AA"
    status := "confirmed" }

/-- The reservation above after one cancellation. -/
def resB : TrainReservation :=
  { resA with
    status := "cancelled"
    payment_history :=
      [{ payment_id := "card_1", amount := 100 }, { payment_id := "card_1", amount := -100 }] }

/-- A railway user owning the reservation. -/
def railUser1 : RailUser :=
  { user_id := "user_1"
    payment_methods := [("card_1", PayMethod.card "card_1")]
    membership := "regular"
    reservations := ["TRN001"] }

/-- A railway database holding the confirmed reservation `TRN001`. -/
def railDB1 : TrainDB :=
  { trains := [], users := [("user_1", railUser1)],
    reservations := [("TRN001", resA)] }

/-- A railway database holding the already-cancelled reservation `TRN001`. -/
def railDB2 : TrainDB :=
  { trains := [], users := [("user_1", railUser1)],
    reservations := [("TRN001", resB)] }

end Railway

namespace Ecom

/-- A delivered sale `S0000001` with one line item paid by card. -/
def saleA : Sale :=
  { sale_ref := "S0000001"
    account_key := "acct_1"
    delivery :=
      { line1 := "1 Main St", line2 := "", municipality := "Springfield",
        nation := "USA", region := "IL", postal_code := "62701" }
    lines := [{ label := "Mug", catalog_ref := "G00001", unit_sku := "SKU_A",
                unit_price := 12 }]
    state := "delivered"
    ledger := [{ entry_kind := "payment", value := 12, instrument_id := "card_9" }] }

/-- A pending sale `S0000002` paid by card. -/
def saleB : Sale :=
  { sale_ref := "S0000002"
    account_key := "acct_1"
    delivery :=
      { line1 := "1 Main St", line2 := "", municipality := "Springfield",
        nation := "USA", region := "IL", postal_code := "62701" }
    lines := [{ label := "Mug", catalog_ref := "G00001", unit_sku := "SKU_A",
                unit_price := 12 }]
    state := "pending"
    ledger := [{ entry_kind := "payment", value := 12, instrument_id := "card_9" }] }

/-- An e-commerce database with one account, one catalogue group with two
offerings in stock, a delivered sale and a pending sale. -/
def ecomDB1 : ECommerceDB :=
  { catalogue := [("G00001",
      { title := "Mugs", group_ref := "G00001",
        offerings :=
          [("SKU_A", { unit_sku := "SKU_A", in_stock := true, unit_price := 12 }),
           ("SKU_B", { unit_sku := "SKU_B", in_stock := true, unit_price := 15 })] })]
    accounts := [("acct_1",
      { account_key := "acct_1"
        funding_sources := [("card_9", { origin := "credit_card", instrument_id := "card_9" })]
        purchases := ["S0000001", "S0000002"] })]
    sales := [("S0000001", saleA), ("S0000002", saleB)] }

end Ecom

/-- C1: fail-fast atomicity.  For every WRITE toolkit operation (all nine
bank WRITE tools via the dispatch, and the railway booking tool), if the call
raises a precondition error then the domain database after the call is
identical to the database before the call. -/
theorem c1_fail_fast_atomicity :
    (∀ (now : String) (db : Bank.BankDB) (call : Bank.WriteCall),
      isErr (Bank.write_dispatch now db call).1 = true →
      (Bank.write_dispatch now db call).2 = db) ∧
    (∀ (db : Railway.TrainDB) (args : Railway.BookArgs),
      isErr (Railway.book_train_reservation db args).1 = true →
      (Railway.book_train_reservation db args).2 = db) :=
  ⟨Bank.write_dispatch_error_frame, Railway.book_train_reservation_error_frame⟩

/-- Witness for C1: a transfer of amount 0 raises and leaves the database
unchanged, and a booking for an unknown user raises and leaves the database
unchanged. -/
theorem c1_fail_fast_atomicity_witness :
    (isErr (Bank.write_dispatch "t0" Bank.bankDB0
      (Bank.WriteCall.initiate_internal_transfer "c" "a" "b" 0 none)).1 = true ∧
     (Bank.write_dispatch "t0" Bank.bankDB0
      (Bank.WriteCall.initiate_internal_transfer "c" "a" "b" 0 none)).2 =
        Bank.bankDB0) ∧
    (isErr (Railway.book_train_reservation Railway.railDB0
      (Railway.BookArgs.mk "u" "NYC" "BOS" "one_way" "sleeper" [] [] [] 0 0
        "none" "no")).1 = true ∧
     (Railway.book_train_reservation Railway.railDB0
      (Railway.BookArgs.mk "u" "NYC" "BOS" "one_way" "sleeper" [] [] [] 0 0
        "none" "no")).2 = Railway.railDB0) :=
  ⟨⟨by decide, c1_fail_fast_atomicity.1 "t0" Bank.bankDB0 _ (by decide)⟩,
   ⟨by decide, c1_fail_fast_atomicity.2 Railway.railDB0 _ (by decide)⟩⟩

/-- C6: only WRITE operations mutate the state store.  Every embedded READ
bank tool and every GENERIC tool (bank and travel) leaves the database
unchanged on every input, including inputs that make the tool raise. -/
theorem c6_read_generic_no_mutation :
    (∀ (db : Bank.BankDB) (call : Bank.ReadCall),
      (Bank.read_dispatch db call).2 = db) ∧
    (∀ (db : Travel.TravelAgencyDB) (call : Travel.GenericCall),
      (Travel.generic_dispatch db call).2 = db) :=
  ⟨fun db call => by cases call <;> rfl,
   fun db call => by cases call <;> rfl⟩

/-- Counterexample for C2: cancelling the already-cancelled booking `TAU001`
is not a no-op — the database changes and the returned booking differs from
the stored one (further refund entries are appended). -/
theorem c2_cancel_idempotent_counterexample :
    Travel.bookingB.status = "cancelled" ∧
    (Travel.cancel_booking Travel.travelDB2 "TAU001").2 ≠ Travel.travelDB2 ∧
    (Travel.cancel_booking Travel.travelDB2 "TAU001").1 ≠
      Except.ok Travel.bookingB := by
  refine ⟨by decide, by decide, by decide⟩

/-- C2 (amended): cancelling an already-cancelled booking or reservation does
not raise and does not touch other entities, but it is not a no-op: it
appends a negated copy of every entry of the current payment history
(including earlier refunds) and re-sets the status to `cancelled`. -/
theorem c2_cancel_already_cancelled_appends :
    (∀ (db : Travel.TravelAgencyDB) (bid tid : String) (b : Travel.Booking)
      (pkg : Travel.Package),
      Travel.get_booking db bid = some (tid, b) →
      alistLookup db.packages b.package_id = some pkg →
      b.status = "cancelled" →
      (Travel.cancel_booking db bid).1 = Except.ok { b with
        payment_history := b.payment_history ++ b.payment_history.map
          (fun p => Travel.BookingPayment.mk p.payment_id (-p.amount))
        status := "cancelled" }) ∧
    (∀ (db : Railway.TrainDB) (rid : String) (r : Railway.TrainReservation),
      alistLookup db.reservations rid = some r →
      r.status = "cancelled" →
      (Railway.cancel_reservation db rid).1 = Except.ok { r with
        payment_history := r.payment_history ++ r.payment_history.map
          (fun p => Railway.RailPayment.mk p.payment_id (-p.amount))
        status := "cancelled" }) :=
  ⟨fun db bid tid b pkg hb hp _ => Travel.cancel_booking_ok db bid tid b pkg hb hp,
   fun db rid r hr _ => (Railway.cancel_reservation_ok db rid r hr).1⟩

/-- Witness for C2 (amended): cancelling the cancelled booking `TAU001` and
the cancelled reservation `TRN001` appends mirrored entries. -/
theorem c2_cancel_already_cancelled_appends_witness :
    (Travel.get_booking Travel.travelDB2 "TAU001" =
      some ("trav_1", Travel.bookingB) ∧
     Travel.bookingB.status = "cancelled" ∧
     (Travel.cancel_booking Travel.travelDB2 "TAU001").1 =
       Except.ok { Travel.bookingB with
         payment_history := Travel.bookingB.payment_history ++
           Travel.bookingB.payment_history.map
             (fun p => Travel.BookingPayment.mk p.payment_id (-p.amount))
         status := "cancelled" }) ∧
    (alistLookup Railway.railDB2.reservations "TRN001" = some Railway.resB ∧
     Railway.resB.status = "cancelled" ∧
     (Railway.cancel_reservation Railway.railDB2 "TRN001").1 =
       Except.ok { Railway.resB with
         payment_history := Railway.resB.payment_history ++
           Railway.resB.payment_history.map
             (fun p => Railway.RailPayment.mk p.payment_id (-p.amount))
         status := "cancelled" }) :=
  ⟨⟨by decide, by decide,
    c2_cancel_already_cancelled_appends.1 Travel.travelDB2 "TAU001" "trav_1"
      Travel.bookingB Travel.pkg1 (by decide) (by decide) (by decide)⟩,
   ⟨by decide, by decide,
    c2_cancel_already_cancelled_appends.2 Railway.railDB2 "TRN001" Railway.resB
      (by decide) (by decide)⟩⟩

/-- C3: refund symmetry and zero-sum.  Cancelling a confirmed booking or
reservation appends, for every entry of amount A of the payment history, a
new entry of amount −A; no pre-existing entry is mutated or removed (the old
history is a prefix of the new one); and the signed sum of the resulting
payment history is exactly zero. -/
theorem c3_refund_symmetry :
    (∀ (db : Travel.TravelAgencyDB) (bid tid : String) (b : Travel.Booking)
      (pkg : Travel.Package),
      Travel.get_booking db bid = some (tid, b) →
      alistLookup db.packages b.package_id = some pkg →
      b.status = "confirmed" →
      ∃ nb, (Travel.cancel_booking db bid).1 = Except.ok nb ∧
        nb.payment_history = b.payment_history ++ b.payment_history.map
          (fun p => Travel.BookingPayment.mk p.payment_id (-p.amount)) ∧
        Travel.paymentsSum nb.payment_history = 0) ∧
    (∀ (db : Railway.TrainDB) (rid : String) (r : Railway.TrainReservation),
      alistLookup db.reservations rid = some r →
      r.status = "confirmed" →
      ∃ nr, (Railway.cancel_reservation db rid).1 = Except.ok nr ∧
        nr.payment_history = r.payment_history ++ r.payment_history.map
          (fun p => Railway.RailPayment.mk p.payment_id (-p.amount)) ∧
        Railway.paymentsSum nr.payment_history = 0) := by
  constructor
  · intro db bid tid b pkg hb hp _
    exact ⟨_, Travel.cancel_booking_ok db bid tid b pkg hb hp, rfl,
      Travel.bookingPaymentsSum_append_neg b.payment_history⟩
  · intro db rid r hr _
    exact ⟨_, (Railway.cancel_reservation_ok db rid r hr).1, rfl,
      Railway.railPaymentsSum_append_neg r.payment_history⟩

/-- Witness for C3: cancelling the confirmed booking `TAU001` (payment
250.00) and the confirmed reservation `TRN001` (payment 100.00). -/
theorem c3_refund_symmetry_witness :
    (Travel.get_booking Travel.travelDB1 "TAU001" =
       some ("trav_1", Travel.bookingA) ∧
     Travel.bookingA.status = "confirmed" ∧
     ∃ nb, (Travel.cancel_booking Travel.travelDB1 "TAU001").1 =
         Except.ok nb ∧
       nb.payment_history = Travel.bookingA.payment_history ++
         Travel.bookingA.payment_history.map
           (fun p => Travel.BookingPayment.mk p.payment_id (-p.amount)) ∧
       Travel.paymentsSum nb.payment_history = 0) ∧
    (alistLookup Railway.railDB1.reservations "TRN001" = some Railway.resA ∧
     Railway.resA.status = "confirmed" ∧
     ∃ nr, (Railway.cancel_reservation Railway.railDB1 "TRN001").1 =
         Except.ok nr ∧
       nr.payment_history = Railway.resA.payment_history ++
         Railway.resA.payment_history.map
           (fun p => Railway.RailPayment.mk p.payment_id (-p.amount)) ∧
       Railway.paymentsSum nr.payment_history = 0) :=
  ⟨⟨by decide, by decide,
    c3_refund_symmetry.1 Travel.travelDB1 "TAU001" "trav_1" Travel.bookingA
      Travel.pkg1 (by decide) (by decide) (by decide)⟩,
   ⟨by decide, by decide,
    c3_refund_symmetry.2 Railway.railDB1 "TRN001" Railway.resA
      (by decide) (by decide)⟩⟩

/-- Counterexample for C7: cancelling the already-cancelled booking `TAU001`,
a state that does not permit cancellation, does not raise (the status check
claimed by the specification is absent from `cancel_booking`). -/
theorem c7_transition_legality_counterexample :
    Travel.bookingB.status = "cancelled" ∧
    isErr (Travel.cancel_booking Travel.travelDB2 "TAU001").1 = false := by
  refine ⟨by decide, by decide⟩

/-- C7 (amended): the e-commerce toolkit enforces transition legality —
`cancel_pending_sale` always raises on a sale whose state is not `pending`,
regardless of the reason argument, and leaves the database unchanged; but
`TravelAgencyTools.cancel_booking` performs no status check at all: it never
raises on an existing booking with an existing package, whatever the current
status, and silently re-sets the status to `cancelled`. -/
theorem c7_transition_legality :
    (∀ (db : Ecom.ECommerceDB) (sale_ref reason : String) (sale : Ecom.Sale),
      alistLookup db.sales sale_ref = some sale →
      sale.state ≠ "pending" →
      isErr (Ecom.cancel_pending_sale db sale_ref reason).1 = true ∧
      (Ecom.cancel_pending_sale db sale_ref reason).2 = db) ∧
    (∀ (db : Travel.TravelAgencyDB) (bid tid : String) (b : Travel.Booking)
      (pkg : Travel.Package),
      Travel.get_booking db bid = some (tid, b) →
      alistLookup db.packages b.package_id = some pkg →
      isErr (Travel.cancel_booking db bid).1 = false) := by
  constructor
  · exact Ecom.cancel_pending_sale_rejects_nonpending
  · intro db bid tid b pkg hb hp
    rw [Travel.cancel_booking_ok db bid tid b pkg hb hp]
    rfl

/-- Witness for C7 (amended): cancelling the delivered sale `S0000001`
raises and leaves the database unchanged; cancelling the cancelled booking
`TAU001` does not raise. -/
theorem c7_transition_legality_witness :
    (alistLookup Ecom.ecomDB1.sales "S0000001" = some Ecom.saleA ∧
     Ecom.saleA.state ≠ "pending" ∧
     isErr (Ecom.cancel_pending_sale Ecom.ecomDB1 "S0000001"
       "no longer needed").1 = true ∧
     (Ecom.cancel_pending_sale Ecom.ecomDB1 "S0000001"
       "no longer needed").2 = Ecom.ecomDB1) ∧
    (Travel.get_booking Travel.travelDB2 "TAU001" =
       some ("trav_1", Travel.bookingB) ∧
     isErr (Travel.cancel_booking Travel.travelDB2 "TAU001").1 = false) :=
  ⟨⟨by decide, by decide,
    (c7_transition_legality.1 Ecom.ecomDB1 "S0000001" "no longer needed"
      Ecom.saleA (by decide) (by decide)).1,
    (c7_transition_legality.1 Ecom.ecomDB1 "S0000001" "no longer needed"
      Ecom.saleA (by decide) (by decide)).2⟩,
   ⟨by decide,
    c7_transition_legality.2 Travel.travelDB2 "TAU001" "trav_1"
      Travel.bookingB Travel.pkg1 (by decide) (by decide)⟩⟩

/-- Counterexample for C8: when the first reply carries a null `context_id`,
a later reply whose identifier differs from the one established by the first
reply is not rejected — the loop does not fail and the action of the second
reply is fed to `Environment.step`. -/
theorem c8_session_correlation_counterexample :
    (Green.runLoop none
      [{ context_id := none, action := "a1" },
       { context_id := some "X", action := "a2" }]).2 = false ∧
    "a2" ∈ (Green.runLoop none
      [{ context_id := none, action := "a1" },
       { context_id := some "X", action := "a2" }]).1 := by
  refine ⟨by decide, by decide⟩

/-- C8 (amended): if the first reply carries a non-null context identifier
`c`, the identifier is fixed from then on: the loop steps exactly the first
action followed by the actions of the longest following prefix of replies
carrying identifier `c`, and it fails fatally exactly when some later reply
carries a different identifier — the offending reply and everything after it
are never fed to `Environment.step`.  (When the first reply carries a null
identifier the stored identifier stays null and the next reply is adopted
instead of rejected, as the counterexample shows.) -/
theorem c8_session_correlation (c a : String) (rest : List Green.AgentReply) :
    Green.runLoop none ({ context_id := some c, action := a } :: rest) =
      (a :: (rest.takeWhile
          (fun r => decide (r.context_id = some c))).map (fun r => r.action),
       rest.any (fun r => !decide (r.context_id = some c))) := by
  simp [Green.runLoop, Green.runLoop_some_spec]

/-- C10: on every successful call of `exchange_delivered_sale_lines` the only
change to the database is the state of the targeted sale becoming
`exchange requested`: its lines, ledger and delivery address are untouched,
no ledger entry is appended for the computed price difference, and no other
sale, account or catalogue entry is modified. -/
theorem c10_exchange_only_sets_state (db : Ecom.ECommerceDB)
    (sale_ref : String) (unit_skus_old unit_skus_new : List String)
    (instrument_id : String) :
    isErr (Ecom.exchange_delivered_sale_lines db sale_ref unit_skus_old
      unit_skus_new instrument_id).1 = false →
    (Ecom.exchange_delivered_sale_lines db sale_ref unit_skus_old
      unit_skus_new instrument_id).2 =
    { db with sales := (alistModify db.sales sale_ref
        (fun s => { s with state := "exchange requested" })) } :=
  Ecom.exchange_success_frame db sale_ref unit_skus_old unit_skus_new
    instrument_id

/-- Witness for C10: exchanging `SKU_A` for the in-stock `SKU_B` within the
delivered sale `S0000001` succeeds, and the final database differs from the
input only in the state of that sale. -/
theorem c10_exchange_only_sets_state_witness :
    isErr (Ecom.exchange_delivered_sale_lines Ecom.ecomDB1 "S0000001"
      ["SKU_A"] ["SKU_B"] "card_9").1 = false ∧
    (Ecom.exchange_delivered_sale_lines Ecom.ecomDB1 "S0000001"
      ["SKU_A"] ["SKU_B"] "card_9").2 =
    { Ecom.ecomDB1 with sales := (alistModify Ecom.ecomDB1.sales "S0000001"
        (fun s => { s with state := "exchange requested" })) } :=
  ⟨by decide,
   c10_exchange_only_sets_state Ecom.ecomDB1 "S0000001" ["SKU_A"] ["SKU_B"]
     "card_9" (by decide)⟩

/-- C4 (code bug): the bank transaction-id generator is not collision-free.
On a database whose single stored transaction sits under the id
`tx_0000002`, `_generate_transaction_id` (which only reads the table length)
returns that very id.  A single `initiate_internal_transfer` call even
generates the same id twice, because both calls of the generator happen
before either insert (see the C5 theorem).  The travel-domain allocator, by
contrast, is collision-free: `_get_new_booking_id` never returns an id
already present among any traveller's bookings. -/
theorem c4_identifier_allocation :
    Bank.generate_transaction_id Bank.bankDB2 = "tx_0000002" ∧
    alistHasKey Bank.bankDB2.transactions "tx_0000002" = true ∧
    (∀ (db : Travel.TravelAgencyDB) (bid : String),
      Travel.get_new_booking_id db = Except.ok bid →
      Travel.get_booking db bid = none) := by
  refine ⟨by decide, by decide, ?_⟩
  intro db bid h
  unfold Travel.get_new_booking_id at h
  repeat' split at h
  all_goals simp_all

/-- Witness for C4: on the database holding the booking `TAU001`, the travel
allocator returns the unused id `TAU002`. -/
theorem c4_identifier_allocation_witness :
    Travel.get_new_booking_id Travel.travelDB1 = Except.ok "TAU002" ∧
    Travel.get_booking Travel.travelDB1 "TAU002" = none :=
  ⟨by decide,
   c4_identifier_allocation.2.2 Travel.travelDB1 "TAU002" (by decide)⟩

/-- C5 (code bug): a valid 100.00 transfer between the two active USD
accounts of `bankDB1` succeeds and returns two posted transactions, debit
then credit — but both carry the same generated id `tx_0000001` (the id
counter is read twice before either insert), so the second insert overwrites
the first and the final store holds a single transaction.  The amounts are
stored unsigned (both `round2 100`, i.e. 100.00) with the sign carried by the
`direction` field. -/
theorem c5_transfer_scenario :
    ((Bank.initiate_internal_transfer "t0" Bank.bankDB1 "client_1" "acc_1"
        "acc_2" 100 none).1.map
      (fun l => l.map (fun t => t.transaction_id)) =
      Except.ok ["tx_0000001", "tx_0000001"]) ∧
    ((Bank.initiate_internal_transfer "t0" Bank.bankDB1 "client_1" "acc_1"
        "acc_2" 100 none).1.map
      (fun l => l.map (fun t => t.direction)) =
      Except.ok ["debit", "credit"]) ∧
    ((Bank.initiate_internal_transfer "t0" Bank.bankDB1 "client_1" "acc_1"
        "acc_2" 100 none).1.map
      (fun l => l.map (fun t => t.status)) =
      Except.ok ["posted", "posted"]) ∧
    ((Bank.initiate_internal_transfer "t0" Bank.bankDB1 "client_1" "acc_1"
        "acc_2" 100 none).1.map
      (fun l => l.map (fun t => t.amount)) =
      Except.ok [round2 100, round2 100]) ∧
    round2 (100 : ℚ) = 100 ∧
    ((Bank.initiate_internal_transfer "t0" Bank.bankDB1 "client_1" "acc_1"
        "acc_2" 100 none).2.transactions.map (fun kv => kv.1) =
      ["tx_0000001"]) := by
  refine ⟨by decide, by decide, by decide, rfl,
    round2_eq_self ⟨10000, by norm_num⟩, by decide⟩

/-- Counterexample for C9: the self-transfer of 100.00 on account `acc_1`
succeeds, but only one transaction is appended to the store (the claim
requires two): both returned records share one generated id, so the second
insert overwrites the first. -/
theorem c9_self_transfer_counterexample :
    isErr (Bank.initiate_internal_transfer "t0" Bank.bankDB1 "client_1"
      "acc_1" "acc_1" 100 none).1 = false ∧
    (Bank.initiate_internal_transfer "t0" Bank.bankDB1 "client_1" "acc_1"
      "acc_1" 100 none).2.transactions.length = 1 := by
  refine ⟨by decide, by decide⟩

/-- C9 (amended): a self-transfer (`from_account_id = to_account_id`) on an
active non-credit account with exact two-decimal balances and a positive
exact two-decimal amount within the available balance succeeds, leaves the
current and available balances of the account equal to their pre-call values,
and returns two posted transactions (debit and credit) whose `balance_after`
both equal the unchanged current balance — but, because both generated ids
coincide, only one of them ends up stored. -/
theorem c9_self_transfer (now : String) (db : Bank.BankDB) (cid aid : String)
    (amount : ℚ) (d : Option String) (client : Bank.Client)
    (acc : Bank.Account)
    (hc : Bank.get_client db cid = some client)
    (ha : alistLookup client.accounts aid = some acc)
    (hact : acc.status = "active") (hcred : acc.type ≠ "credit")
    (hpos : 0 < amount) (hava : amount ≤ acc.balance.available)
    (hcamt : IsCents amount) (hcav : IsCents acc.balance.available)
    (hccur : IsCents acc.balance.current) :
    ∃ t1 t2,
      (Bank.initiate_internal_transfer now db cid aid aid amount d).1 =
        Except.ok [t1, t2] ∧
      t1.balance_after = some acc.balance.current ∧
      t2.balance_after = some acc.balance.current ∧
      t1.status = "posted" ∧ t2.status = "posted" ∧
      t1.direction = "debit" ∧ t2.direction = "credit" ∧
      Bank.accountCurrent
        (Bank.initiate_internal_transfer now db cid aid aid amount d).2
        cid aid = acc.balance.current ∧
      Bank.accountAvailable
        (Bank.initiate_internal_transfer now db cid aid aid amount d).2
        cid aid = acc.balance.available :=
  Bank.self_transfer_spec now db cid aid amount d client acc hc ha hact hcred
    hpos hava hcamt hcav hccur

/-- Witness for C9 (amended): the self-transfer of 100.00 on `acc_1` of
`bankDB1` (balances 500.00) leaves both balances at 500.00 and reports
`balance_after` 500.00 on both returned transactions. -/
theorem c9_self_transfer_witness :
    Bank.get_client Bank.bankDB1 "client_1" = some Bank.client1 ∧
    (0 : ℚ) < 100 ∧ IsCents (100 : ℚ) ∧
    (∃ t1 t2,
      (Bank.initiate_internal_transfer "t0" Bank.bankDB1 "client_1" "acc_1"
        "acc_1" 100 none).1 = Except.ok [t1, t2] ∧
      t1.balance_after = some Bank.acc1.balance.current ∧
      t2.balance_after = some Bank.acc1.balance.current ∧
      t1.status = "posted" ∧ t2.status = "posted" ∧
      t1.direction = "debit" ∧ t2.direction = "credit" ∧
      Bank.accountCurrent
        (Bank.initiate_internal_transfer "t0" Bank.bankDB1 "client_1" "acc_1"
          "acc_1" 100 none).2 "client_1" "acc_1" = Bank.acc1.balance.current ∧
      Bank.accountAvailable
        (Bank.initiate_internal_transfer "t0" Bank.bankDB1 "client_1" "acc_1"
          "acc_1" 100 none).2 "client_1" "acc_1" =
        Bank.acc1.balance.available) :=
  ⟨by decide, by decide, ⟨10000, by norm_num⟩,
   c9_self_transfer "t0" Bank.bankDB1 "client_1" "acc_1" 100 none
     Bank.client1 Bank.acc1 (by decide) (by decide) (by decide) (by decide)
     (by decide) (by decide) ⟨10000, by norm_num⟩
     ⟨50000, by norm_num [Bank.acc1]⟩ ⟨50000, by norm_num [Bank.acc1]⟩⟩
